import Mathlib

/-!
Shallow embedding of the Solarlib library (Solarlib.cpp / Solarlib.h).

The C code computes, from a Unix timestamp, a chain of solar-position
quantities in IEEE double precision.  The embedding models C doubles as
real numbers, C integer types (int, long, time_t) as integers, and the
partiality of the C inverse-trigonometric functions (asin and acos
return NaN outside the domain interval from -1 to 1, and that NaN then
propagates through every later arithmetic operation) as Option-valued
fields: none stands for NaN.  All other arithmetic, including sin, cos,
tan and atan2, is total in C for finite arguments and is modelled by
the corresponding total real functions.

Modelling notes recorded once here:
- DEG_TO_RAD and RAD_TO_DEG are the Arduino core constants, which are
  the double-precision roundings of pi / 180 and 180 / pi; the real
  embedding uses the exact values.
- time_t is modelled as a signed mathematical integer; the C division
  sign on integers truncates toward zero, modelled by Int.tdiv, and a
  C double-to-integer conversion also truncates toward zero.
- On the ARM target a double-to-integer conversion of NaN produces 0
  (the C standard leaves it undefined); the cast is modelled total with
  the NaN case mapped to 0.
-/

namespace Solarlib

noncomputable section

/-- Arduino constant DEG_TO_RAD (exact value of the rounded literal). -/
def DEG_TO_RAD : ℝ := Real.pi / 180

/-- Arduino constant RAD_TO_DEG (exact value of the rounded literal). -/
def RAD_TO_DEG : ℝ := 180 / Real.pi

/-- Solarlib.h line 56: julian days to the start of the unix epoch. -/
def julianUnixEpoch : ℝ := 2440587.5

/-- Modelled from the spec: the Time library (an external dependency,
not part of this repository) decomposes a Unix timestamp into UTC
wall-clock components; hour(t) is the hour of day, an integer 0..23. -/
def hourOf (t : ℤ) : ℤ := (t.emod 86400).ediv 3600

/-- Modelled from the spec: minute-of-hour component, an integer 0..59. -/
def minuteOf (t : ℤ) : ℤ := (t.emod 3600).ediv 60

/-- Modelled from the spec: second-of-minute component, an integer 0..59. -/
def secondOf (t : ℤ) : ℤ := t.emod 60

/-- C asin: NaN (none) outside the domain, else the principal value. -/
def asinD (x : ℝ) : Option ℝ :=
  if -1 ≤ x ∧ x ≤ 1 then some (Real.arcsin x) else none

/-- C acos: NaN (none) outside the domain, else the principal value. -/
def acosD (x : ℝ) : Option ℝ :=
  if -1 ≤ x ∧ x ≤ 1 then some (Real.arccos x) else none

/-- C atan2, total, with the atan2(0,0) = 0 convention, via Complex.arg. -/
def atan2 (y x : ℝ) : ℝ := Complex.arg ⟨x, y⟩

/-- C conversion of a double to an integer type: truncation toward zero. -/
def ctrunc (x : ℝ) : ℤ := if 0 ≤ x then ⌊x⌋ else -⌊-x⌋

/-- Conversion of a possibly-NaN double to time_t.  A NaN argument is
undefined behaviour in C; the ARM conversion instruction produces 0. -/
def timeTcast (x : Option ℝ) : ℤ :=
  match x with
  | none => 0
  | some v => ctrunc v

/-- Solarlib.cpp line 270 comment: modulo as in R or Excel, that is
floored-division normalization x - 360 * floor(x / 360). -/
def mod360 (x : ℝ) : ℝ := x - 360 * (⌊x / 360⌋ : ℤ)

/-- Solarlib.cpp line 358: the same normalization with period 1440. -/
def mod1440 (x : ℝ) : ℝ := x - 1440 * (⌊x / 1440⌋ : ℤ)

/-- Solarlib.cpp lines 249-250: time past midnight as a fraction of a
day.  The subexpression (double)(second(t)/60) casts the result of the
C integer division second(t)/60, which is 0 for second(t) in 0..59. -/
def timeFracDayOf (t : ℤ) : ℝ :=
  (((((secondOf t).tdiv 60 : ℤ) : ℝ) + (minuteOf t : ℝ)) / 60 + (hourOf t : ℝ)) / 24

/-- Solarlib.cpp line 254: whole days since the epoch, by C integer
division (truncation toward zero). -/
def unixDaysOf (t : ℤ) : ℤ := t.tdiv 86400

/-- Solarlib.cpp lines 256-262: Julian Day Number, adjusted to GMT. -/
def jdnOf (t : ℤ) (tz : ℤ) : ℝ :=
  julianUnixEpoch + (unixDaysOf t : ℝ) + timeFracDayOf t - (tz : ℝ) / 24

/-- Solarlib.cpp line 264: Julian Century Number. -/
def jcnOf (jdn : ℝ) : ℝ := (jdn - 2451545) / 36525

/-- Solarlib.cpp line 266: Geometric Mean Longitude polynomial. -/
def gmls0Of (jcn : ℝ) : ℝ := 280.46646 + jcn * (36000.76983 + jcn * 0.0003032)

/-- Solarlib.cpp line 270: GMLS normalized by floored modulo 360. -/
def gmlsOf (jcn : ℝ) : ℝ := mod360 (gmls0Of jcn)

/-- Solarlib.cpp line 272: Geometric Mean Anomaly of Sun (degrees). -/
def gmasOf (jcn : ℝ) : ℝ := 357.52911 + jcn * (35999.05029 - 0.0001537 * jcn)

/-- Solarlib.cpp line 275: Eccentricity of Earth Orbit. -/
def eeoOf (jcn : ℝ) : ℝ := 0.016708634 - jcn * (0.000042037 + 0.0000001267 * jcn)

/-- Solarlib.cpp lines 277-280: Sun Equation of Center. -/
def secOf (jcn : ℝ) : ℝ :=
  Real.sin (gmasOf jcn * DEG_TO_RAD) *
      (1.914602 - jcn * (0.004817 + 0.000014 * jcn)) +
    Real.sin (2 * gmasOf jcn * DEG_TO_RAD) * (0.019993 - 0.000101 * jcn) +
    Real.sin (3 * gmasOf jcn * DEG_TO_RAD) * 0.000289

/-- Solarlib.cpp line 282: Sun True Longitude (degrees). -/
def stlOf (jcn : ℝ) : ℝ := gmlsOf jcn + secOf jcn

/-- Solarlib.cpp line 284: Sun True Anomaly (degrees). -/
def staOf (jcn : ℝ) : ℝ := gmasOf jcn + secOf jcn

/-- Solarlib.cpp lines 286-287: Sun Radian Vector (AU). -/
def srvOf (jcn : ℝ) : ℝ :=
  1.000001018 * (1 - eeoOf jcn * eeoOf jcn) /
    (1 + eeoOf jcn * Real.cos (staOf jcn * DEG_TO_RAD))

/-- Solarlib.cpp lines 289-290: Sun Apparent Longitude (degrees). -/
def salOf (jcn : ℝ) : ℝ :=
  stlOf jcn - 0.00569 -
    0.00478 * Real.sin ((125.04 - 1934.136 * jcn) * DEG_TO_RAD)

/-- Solarlib.cpp lines 292-293: Mean Oblique Ecliptic (degrees). -/
def moeOf (jcn : ℝ) : ℝ :=
  23 + (26 + (21.448 - jcn * (46.815 + jcn * (0.00059 - jcn * 0.001813))) / 60) / 60

/-- Solarlib.cpp line 295: Oblique correction (degrees). -/
def ocOf (jcn : ℝ) : ℝ :=
  moeOf jcn + 0.00256 * Real.cos ((125.04 - 1934.136 * jcn) * DEG_TO_RAD)

/-- Solarlib.cpp lines 297-298: Sun Right Ascension (degrees). -/
def sraOf (jcn : ℝ) : ℝ :=
  atan2 (Real.cos (ocOf jcn * DEG_TO_RAD) * Real.sin (salOf jcn * DEG_TO_RAD))
      (Real.cos (salOf jcn * DEG_TO_RAD)) * RAD_TO_DEG

/-- Solarlib.cpp lines 300-301: Sun Declination (degrees); the asin can
produce NaN outside its domain, hence the Option. -/
def sdecOf (jcn : ℝ) : Option ℝ :=
  (asinD (Real.sin (ocOf jcn * DEG_TO_RAD) * Real.sin (salOf jcn * DEG_TO_RAD))).map
    (fun v => v * RAD_TO_DEG)

/-- Solarlib.cpp line 303: var y. -/
def vyOf (jcn : ℝ) : ℝ :=
  Real.tan (ocOf jcn / 2 * DEG_TO_RAD) * Real.tan (ocOf jcn / 2 * DEG_TO_RAD)

/-- Solarlib.cpp lines 306-312: Equation of Time (minutes). -/
def eotOf (jcn : ℝ) : ℝ :=
  4 * ((vyOf jcn * Real.sin (2 * (gmlsOf jcn * DEG_TO_RAD)) -
      2 * eeoOf jcn * Real.sin (gmasOf jcn * DEG_TO_RAD) +
      4 * eeoOf jcn * vyOf jcn * Real.sin (gmasOf jcn * DEG_TO_RAD) *
        Real.cos (2 * (gmlsOf jcn * DEG_TO_RAD)) -
      0.5 * vyOf jcn * vyOf jcn * Real.sin (4 * (gmlsOf jcn * DEG_TO_RAD)) -
      1.25 * eeoOf jcn * eeoOf jcn * Real.sin (2 * (gmasOf jcn * DEG_TO_RAD))) *
    RAD_TO_DEG)

/-- Solarlib.cpp lines 314-317: Hour Angle Sunrise (degrees); NaN from
the declination propagates, and the acos itself can produce NaN. -/
def hasOf (jcn : ℝ) (lat : ℝ) : Option ℝ :=
  (sdecOf jcn).bind fun d =>
    (acosD (Real.cos (90.833 * DEG_TO_RAD) /
        (Real.cos (lat * DEG_TO_RAD) * Real.cos (d * DEG_TO_RAD)) -
      Real.tan (lat * DEG_TO_RAD) * Real.tan (d * DEG_TO_RAD))).map
      (fun v => v * RAD_TO_DEG)

/-- Solarlib.cpp line 320: Solar Noon as a fraction of a day (GMT). -/
def solarNoonfracOf (jcn : ℝ) (lon : ℝ) : ℝ := (720 - 4 * lon - eotOf jcn) / 1440

/-- Solarlib.cpp lines 324-327: Solar Noon, local days since epoch. -/
def solarNoonDaysOf (t : ℤ) (tz : ℤ) (jcn : ℝ) (lon : ℝ) : ℝ :=
  (unixDaysOf t : ℝ) + solarNoonfracOf jcn lon + (tz : ℝ) / 24

/-- Solarlib.cpp lines 331-337: Sunrise in local epoch seconds. -/
def sunriseOf (t : ℤ) (tz : ℤ) (jcn : ℝ) (lat lon : ℝ) : Option ℝ :=
  (hasOf jcn lat).map fun h =>
    ((unixDaysOf t : ℝ) + (solarNoonfracOf jcn lon - h * 4 / 1440) + (tz : ℝ) / 24) * 86400

/-- Solarlib.cpp lines 341-347: Sunset in local epoch seconds. -/
def sunsetOf (t : ℤ) (tz : ℤ) (jcn : ℝ) (lat lon : ℝ) : Option ℝ :=
  (hasOf jcn lat).map fun h =>
    ((unixDaysOf t : ℝ) + (solarNoonfracOf jcn lon + h * 4 / 1440) + (tz : ℝ) / 24) * 86400

/-- Solarlib.cpp lines 353-358: True Solar Time (minutes), normalized
by floored modulo 1440. -/
def tstOf (t : ℤ) (jcn : ℝ) (lon : ℝ) (tz : ℤ) : ℝ :=
  mod1440 (timeFracDayOf t * 1440 + eotOf jcn + 4 * lon - 60 * (tz : ℝ))

/-- Solarlib.cpp lines 360-364: Hour Angle (degrees).  The two branch
conditions of the source are exhaustive over the reals. -/
def haOf (tst : ℝ) : ℝ := if tst / 4 < 0 then tst / 4 + 180 else tst / 4 - 180

/-- Solarlib.cpp lines 366-370: Solar Zenith Angle (degrees). -/
def szaOf (jcn : ℝ) (lat : ℝ) (ha : ℝ) : Option ℝ :=
  (sdecOf jcn).bind fun d =>
    (acosD (Real.sin (lat * DEG_TO_RAD) * Real.sin (d * DEG_TO_RAD) +
      Real.cos (lat * DEG_TO_RAD) * Real.cos (d * DEG_TO_RAD) *
        Real.cos (ha * DEG_TO_RAD))).map (fun v => v * RAD_TO_DEG)

/-- Solarlib.cpp line 372: Solar Elevation Angle (degrees). -/
def seaOf (jcn : ℝ) (lat : ℝ) (ha : ℝ) : Option ℝ :=
  (szaOf jcn lat ha).map (fun z => 90 - z)

/-- Solarlib.cpp lines 374-386: Approximate Atmospheric Refraction as a
function of the (finite) elevation angle, with the breakpoints 85, 5
and -0.575 of the source, and the final division by 3600 that the
source applies after the branch. -/
def aarFn (sea : ℝ) : ℝ :=
  (if 85 < sea then 0
   else if 5 < sea then
     58.1 / Real.tan (sea * DEG_TO_RAD) -
       0.07 / Real.tan (sea * DEG_TO_RAD) ^ 3 +
       0.000086 / Real.tan (sea * DEG_TO_RAD) ^ 5
   else if -0.575 < sea then
     1735 + sea * (-581.2 * sea * (103.4 + sea * (-12.79 + sea * 0.711)))
   else -20.772 / Real.tan (sea * DEG_TO_RAD)) / 3600

/-- Solarlib.cpp lines 374-386 lifted over a possibly-NaN elevation:
with a NaN elevation every branch condition is false in C and the
result -20.772/tan(NaN) is again NaN. -/
def aarOf (jcn : ℝ) (lat : ℝ) (ha : ℝ) : Option ℝ :=
  (seaOf jcn lat ha).map aarFn

/-- Solarlib.cpp line 389: refraction-corrected elevation (degrees). -/
def secCorrOf (jcn : ℝ) (lat : ℝ) (ha : ℝ) : Option ℝ :=
  (seaOf jcn lat ha).bind fun e => (aarOf jcn lat ha).map (fun a => e + a)

/-- Solarlib.cpp lines 391-407: Solar Azimuth Angle (degrees), branch
on the sign of the Hour Angle, each branch normalized by floored
modulo 360. -/
def saaOf (jcn : ℝ) (lat : ℝ) (ha : ℝ) : Option ℝ :=
  (sdecOf jcn).bind fun d =>
    (szaOf jcn lat ha).bind fun z =>
      if 0 < ha then
        (acosD ((Real.sin (lat * DEG_TO_RAD) * Real.cos (z * DEG_TO_RAD) -
            Real.sin (d * DEG_TO_RAD)) /
          (Real.cos (lat * DEG_TO_RAD) * Real.sin (z * DEG_TO_RAD)))).map
          (fun a => mod360 (a * RAD_TO_DEG + 180))
      else
        (acosD ((Real.sin (lat * DEG_TO_RAD) * Real.cos (z * DEG_TO_RAD) -
            Real.sin (d * DEG_TO_RAD)) /
          (Real.cos (lat * DEG_TO_RAD) * Real.sin (z * DEG_TO_RAD)))).map
          (fun a => mod360 (540 - a * RAD_TO_DEG))

/-- The result-and-configuration record, Solarlib.h lines 58-96.
Fields that C can hold as NaN are Option-valued (none = NaN). -/
structure SolarElements where
  tzOffset : ℤ := 0
  lat : ℝ := 0
  lon : ℝ := 0
  timeFracDay : ℝ := 0
  unixDays : ℤ := 0
  JDN : ℝ := 0
  JCN : ℝ := 0
  GMLS : ℝ := 0
  GMAS : ℝ := 0
  EEO : ℝ := 0
  SEC : ℝ := 0
  STL : ℝ := 0
  STA : ℝ := 0
  SRV : ℝ := 0
  SAL : ℝ := 0
  MOE : ℝ := 0
  OC : ℝ := 0
  SRA : ℝ := 0
  SDec : Option ℝ := some 0
  vy : ℝ := 0
  EOT : ℝ := 0
  HAS : Option ℝ := some 0
  SolarNoonfrac : ℝ := 0
  SolarNoonDays : ℝ := 0
  SolarNoonTime : ℤ := 0
  Sunrise : Option ℝ := some 0
  SunriseTime : ℤ := 0
  Sunset : Option ℝ := some 0
  SunsetTime : ℤ := 0
  SunDuration : Option ℝ := some 0
  TST : ℝ := 0
  HA : ℝ := 0
  SZA : Option ℝ := some 0
  SEA : Option ℝ := some 0
  AAR : Option ℝ := some 0
  SEC_Corr : Option ℝ := some 0
  SAA : Option ℝ := some 0

/-- Solarlib.cpp line 56: the static cache, zero-initialized by C
static storage rules. -/
def SE0 : SolarElements := {}

/-- Solarlib.cpp lines 59-63: initSolarCalc writes the three
configuration fields of the record. -/
def initSolarCalc (tz : ℤ) (lat lon : ℝ) (s : SolarElements) : SolarElements :=
  { s with tzOffset := tz, lat := lat, lon := lon }

/-- Solarlib.cpp lines 246-408: the main computation.  Reads tzOffset,
lat and lon from the record and writes every computed field. -/
def calcSolar (t : ℤ) (s : SolarElements) : SolarElements :=
  let jcn := jcnOf (jdnOf t s.tzOffset)
  let tst := tstOf t jcn s.lon s.tzOffset
  let ha := haOf tst
  { s with
    timeFracDay := timeFracDayOf t
    unixDays := unixDaysOf t
    JDN := jdnOf t s.tzOffset
    JCN := jcn
    GMLS := gmlsOf jcn
    GMAS := gmasOf jcn
    EEO := eeoOf jcn
    SEC := secOf jcn
    STL := stlOf jcn
    STA := staOf jcn
    SRV := srvOf jcn
    SAL := salOf jcn
    MOE := moeOf jcn
    OC := ocOf jcn
    SRA := sraOf jcn
    SDec := sdecOf jcn
    vy := vyOf jcn
    EOT := eotOf jcn
    HAS := hasOf jcn s.lat
    SolarNoonfrac := solarNoonfracOf jcn s.lon
    SolarNoonDays := solarNoonDaysOf t s.tzOffset jcn s.lon
    SolarNoonTime := ctrunc (solarNoonDaysOf t s.tzOffset jcn s.lon * 86400)
    Sunrise := sunriseOf t s.tzOffset jcn s.lat s.lon
    SunriseTime := timeTcast (sunriseOf t s.tzOffset jcn s.lat s.lon)
    Sunset := sunsetOf t s.tzOffset jcn s.lat s.lon
    SunsetTime := timeTcast (sunsetOf t s.tzOffset jcn s.lat s.lon)
    SunDuration := (hasOf jcn s.lat).map (fun h => 8 * h)
    TST := tst
    HA := ha
    SZA := szaOf jcn s.lat ha
    SEA := seaOf jcn s.lat ha
    AAR := aarOf jcn s.lat ha
    SEC_Corr := secCorrOf jcn s.lat ha
    SAA := saaOf jcn s.lat ha }

/-- Solarlib.cpp lines 66-68: accessor, reads the stored time zone
offset; returns the value and (to make the absence of writes visible)
the unchanged state. -/
def gettzOffset (s : SolarElements) : ℤ × SolarElements := (s.tzOffset, s)

/-- Solarlib.cpp lines 70-72: latitude accessor. -/
def getlat (s : SolarElements) : ℝ × SolarElements := (s.lat, s)

/-- Solarlib.cpp lines 74-76: longitude accessor. -/
def getlon (s : SolarElements) : ℝ × SolarElements := (s.lon, s)

/-- Solarlib.cpp lines 139-142: the getOC accessor runs calcSolar and
then returns the MOE field of the cache (the source text says
return SE.MOE on line 141). -/
def getOC (t : ℤ) (s : SolarElements) : ℝ × SolarElements :=
  ((calcSolar t s).MOE, calcSolar t s)

/-- Spec formula for step 1 (spec section 4.3, item 1), written from
the words of the spec: timeFracDay = (hour + minute/60 + second/3600) / 24. -/
def specTimeFracDay (t : ℤ) : ℝ :=
  ((hourOf t : ℝ) + (minuteOf t : ℝ) / 60 + (secondOf t : ℝ) / 3600) / 24

/-- The concrete winter-solstice instant 2012-12-21 18:00:00 UTC used
in the concrete-input lemmas below. -/
def T0 : ℤ := 1356112800

/-- Configuration latitude 75 N, longitude 0, time zone 0. -/
def s75 : SolarElements := initSolarCalc 0 75 0 SE0

/-- Configuration latitude 0, longitude 0, time zone 0. -/
def s00 : SolarElements := initSolarCalc 0 0 0 SE0

/-- The Julian Century Number at T0 (established by a lemma below). -/
def jcnT0 : ℝ := 18953 / 146100

/-- The asin argument of the declination computation at T0. -/
def pT0 : ℝ :=
  Real.sin (ocOf jcnT0 * DEG_TO_RAD) * Real.sin (salOf jcnT0 * DEG_TO_RAD)

/-- The declination value (degrees) at T0. -/
def dT0 : ℝ := Real.arcsin pT0 * RAD_TO_DEG

/-- The Hour Angle at T0 with longitude 0 and time zone 0. -/
def haT0 : ℝ := haOf (tstOf T0 jcnT0 0 0)

/-- The acos argument of Hour Angle Sunrise at T0, latitude 75. -/
def hasArg75 : ℝ :=
  Real.cos (90.833 * DEG_TO_RAD) /
      (Real.cos (75 * DEG_TO_RAD) * Real.cos (dT0 * DEG_TO_RAD)) -
    Real.tan (75 * DEG_TO_RAD) * Real.tan (dT0 * DEG_TO_RAD)

/-- The acos argument of Hour Angle Sunrise at T0, latitude 0. -/
def hasArg0 : ℝ :=
  Real.cos (90.833 * DEG_TO_RAD) /
      (Real.cos (0 * DEG_TO_RAD) * Real.cos (dT0 * DEG_TO_RAD)) -
    Real.tan (0 * DEG_TO_RAD) * Real.tan (dT0 * DEG_TO_RAD)

/-- The finite Hour Angle Sunrise (degrees) at T0, latitude 0. -/
def hT0 : ℝ := Real.arccos hasArg0 * RAD_TO_DEG

/-- The acos argument of the zenith angle at T0, latitude 75. -/
def arg2T0 : ℝ :=
  Real.sin (75 * DEG_TO_RAD) * Real.sin (dT0 * DEG_TO_RAD) +
    Real.cos (75 * DEG_TO_RAD) * Real.cos (dT0 * DEG_TO_RAD) *
      Real.cos (haT0 * DEG_TO_RAD)

/-- The zenith angle value (degrees) at T0, latitude 75. -/
def zT0 : ℝ := Real.arccos arg2T0 * RAD_TO_DEG

/-- The acos argument of the azimuth computation at T0, latitude 75. -/
def arg3T0 : ℝ :=
  (Real.sin (75 * DEG_TO_RAD) * Real.cos (zT0 * DEG_TO_RAD) -
      Real.sin (dT0 * DEG_TO_RAD)) /
    (Real.cos (75 * DEG_TO_RAD) * Real.sin (zT0 * DEG_TO_RAD))

/-- The finite Sunrise value (local epoch seconds) at T0, latitude 0. -/
def rT0 : ℝ :=
  ((unixDaysOf T0 : ℝ) + (solarNoonfracOf jcnT0 0 - hT0 * 4 / 1440) +
    ((0 : ℤ) : ℝ) / 24) * 86400

end

end Solarlib

namespace Solarlib

theorem mod360_mem (x : ℝ) : 0 ≤ mod360 x ∧ mod360 x < 360 := by
  have h1 := Int.floor_le (x / 360)
  have h2 := Int.lt_floor_add_one (x / 360)
  unfold mod360
  constructor <;> nlinarith

theorem mod1440_mem (x : ℝ) : 0 ≤ mod1440 x ∧ mod1440 x < 1440 := by
  have h1 := Int.floor_le (x / 1440)
  have h2 := Int.lt_floor_add_one (x / 1440)
  unfold mod1440
  constructor <;> nlinarith

theorem RAD_TO_DEG_nonneg : 0 ≤ RAD_TO_DEG :=
  div_nonneg (by norm_num) Real.pi_pos.le

theorem hasOf_nonneg {jcn lat h : ℝ} (hh : hasOf jcn lat = some h) : 0 ≤ h := by
  unfold hasOf at hh
  rcases Option.bind_eq_some.mp hh with ⟨d, _, hmap⟩
  rcases Option.map_eq_some'.mp hmap with ⟨v, hv, rfl⟩
  unfold acosD at hv
  split at hv
  · cases hv
    exact mul_nonneg (Real.arccos_nonneg _) RAD_TO_DEG_nonneg
  · cases hv

/-- Claim C9: after initSolarCalc(tz, lat, lon) the three accessors
return exactly the stored values; the accessors mutate nothing; the
initializer writes only the three configuration fields and leaves all
computed result fields unchanged; and calcSolar leaves the three
configuration fields unchanged, so the accessors keep returning the
initialized values until the next initialization. -/
theorem init_and_accessors_frame (tz : ℤ) (la lo : ℝ) (s : SolarElements) (t : ℤ) :
    (gettzOffset (initSolarCalc tz la lo s)).1 = tz ∧
    (getlat (initSolarCalc tz la lo s)).1 = la ∧
    (getlon (initSolarCalc tz la lo s)).1 = lo ∧
    (gettzOffset s).2 = s ∧ (getlat s).2 = s ∧ (getlon s).2 = s ∧
    (initSolarCalc tz la lo s).timeFracDay = s.timeFracDay ∧
    (initSolarCalc tz la lo s).unixDays = s.unixDays ∧
    (initSolarCalc tz la lo s).JDN = s.JDN ∧
    (initSolarCalc tz la lo s).JCN = s.JCN ∧
    (initSolarCalc tz la lo s).GMLS = s.GMLS ∧
    (initSolarCalc tz la lo s).GMAS = s.GMAS ∧
    (initSolarCalc tz la lo s).EEO = s.EEO ∧
    (initSolarCalc tz la lo s).SEC = s.SEC ∧
    (initSolarCalc tz la lo s).STL = s.STL ∧
    (initSolarCalc tz la lo s).STA = s.STA ∧
    (initSolarCalc tz la lo s).SRV = s.SRV ∧
    (initSolarCalc tz la lo s).SAL = s.SAL ∧
    (initSolarCalc tz la lo s).MOE = s.MOE ∧
    (initSolarCalc tz la lo s).OC = s.OC ∧
    (initSolarCalc tz la lo s).SRA = s.SRA ∧
    (initSolarCalc tz la lo s).SDec = s.SDec ∧
    (initSolarCalc tz la lo s).vy = s.vy ∧
    (initSolarCalc tz la lo s).EOT = s.EOT ∧
    (initSolarCalc tz la lo s).HAS = s.HAS ∧
    (initSolarCalc tz la lo s).SolarNoonfrac = s.SolarNoonfrac ∧
    (initSolarCalc tz la lo s).SolarNoonDays = s.SolarNoonDays ∧
    (initSolarCalc tz la lo s).SolarNoonTime = s.SolarNoonTime ∧
    (initSolarCalc tz la lo s).Sunrise = s.Sunrise ∧
    (initSolarCalc tz la lo s).SunriseTime = s.SunriseTime ∧
    (initSolarCalc tz la lo s).Sunset = s.Sunset ∧
    (initSolarCalc tz la lo s).SunsetTime = s.SunsetTime ∧
    (initSolarCalc tz la lo s).SunDuration = s.SunDuration ∧
    (initSolarCalc tz la lo s).TST = s.TST ∧
    (initSolarCalc tz la lo s).HA = s.HA ∧
    (initSolarCalc tz la lo s).SZA = s.SZA ∧
    (initSolarCalc tz la lo s).SEA = s.SEA ∧
    (initSolarCalc tz la lo s).AAR = s.AAR ∧
    (initSolarCalc tz la lo s).SEC_Corr = s.SEC_Corr ∧
    (initSolarCalc tz la lo s).SAA = s.SAA ∧
    (calcSolar t (initSolarCalc tz la lo s)).tzOffset = tz ∧
    (calcSolar t (initSolarCalc tz la lo s)).lat = la ∧
    (calcSolar t (initSolarCalc tz la lo s)).lon = lo :=
  ⟨rfl, rfl, rfl, rfl, rfl, rfl, rfl, rfl, rfl, rfl, rfl, rfl, rfl, rfl, rfl,
   rfl, rfl, rfl, rfl, rfl, rfl, rfl, rfl, rfl, rfl, rfl, rfl, rfl, rfl, rfl,
   rfl, rfl, rfl, rfl, rfl, rfl, rfl, rfl, rfl, rfl, rfl, rfl, rfl⟩

/-- Claim C1 (code bug evidence): at t = 30, that is 1970-01-01
00:00:30 UTC, the code computes timeFracDay = 0 because the cast in
(double)(second(t)/60) is applied after the C integer division, while
the spec formula (hour + minute/60 + second/3600)/24 gives 1/2880. -/
theorem timeFracDay_drops_seconds :
    (calcSolar 30 SE0).timeFracDay = 0 ∧ specTimeFracDay 30 = 1 / 2880 ∧
    (calcSolar 30 SE0).timeFracDay ≠ specTimeFracDay 30 := by
  have hsec : secondOf 30 = 30 := by decide
  have hmin : minuteOf 30 = 0 := by decide
  have hhour : hourOf 30 = 0 := by decide
  have htd : (secondOf 30).tdiv 60 = 0 := by decide
  have h1 : (calcSolar 30 SE0).timeFracDay = 0 := by
    show timeFracDayOf 30 = 0
    unfold timeFracDayOf
    rw [htd, hmin, hhour]
    norm_num
  have h2 : specTimeFracDay 30 = 1 / 2880 := by
    unfold specTimeFracDay
    rw [hsec, hmin, hhour]
    norm_num
  refine ⟨h1, h2, ?_⟩
  rw [h1, h2]
  norm_num

/-- Claim C3 counterexample: at t = -1 the code computes unixDays = 0
(C integer division truncates toward zero), while floor(-1 / 86400)
is -1. -/
theorem unixDays_not_floor :
    (calcSolar (-1) SE0).unixDays ≠ ⌊(((-1 : ℤ) : ℝ)) / 86400⌋ := by
  have h1 : (calcSolar (-1) SE0).unixDays = 0 := by
    show unixDaysOf (-1) = 0
    decide
  have h2 : ⌊(((-1 : ℤ) : ℝ)) / 86400⌋ = -1 := by
    rw [Int.floor_eq_iff]
    push_cast
    constructor <;> norm_num
  rw [h1, h2]
  decide

/-- Claim C3 amended: unixDays is the C truncating division of t by
86400 (rounding toward zero, which the source comment itself states),
and this agrees with floor(t / 86400) for every nonnegative t. -/
theorem unixDays_is_tdiv (t : ℤ) (s : SolarElements) :
    (calcSolar t s).unixDays = t.tdiv 86400 ∧
    (0 ≤ t → (calcSolar t s).unixDays = ⌊(t : ℝ) / 86400⌋) := by
  refine ⟨rfl, fun ht => ?_⟩
  show unixDaysOf t = ⌊(t : ℝ) / 86400⌋
  unfold unixDaysOf
  rw [Int.tdiv_eq_ediv ht (by norm_num)]
  have h3 : ((t : ℝ)) = 86400 * ((t / 86400 : ℤ) : ℝ) + ((t % 86400 : ℤ) : ℝ) := by
    exact_mod_cast (Int.ediv_add_emod t 86400).symm
  have h0 : (0 : ℝ) ≤ ((t % 86400 : ℤ) : ℝ) := by
    exact_mod_cast Int.emod_nonneg t (by norm_num)
  have h1 : ((t % 86400 : ℤ) : ℝ) < 86400 := by
    exact_mod_cast Int.emod_lt_of_pos t (by norm_num)
  symm
  rw [Int.floor_eq_iff]
  constructor
  · rw [le_div_iff₀ (by norm_num : (0 : ℝ) < 86400)]
    linarith
  · rw [div_lt_iff₀ (by norm_num : (0 : ℝ) < 86400)]
    linarith

/-- Witness for the amended claim C3 at t = 5. -/
theorem unixDays_is_tdiv_witness :
    (calcSolar 5 SE0).unixDays = Int.tdiv 5 86400 ∧
    (calcSolar 5 SE0).unixDays = ⌊((5 : ℤ) : ℝ) / 86400⌋ :=
  ⟨(unixDays_is_tdiv 5 SE0).1, (unixDays_is_tdiv 5 SE0).2 (by norm_num)⟩

/-- Claim C6: the Geometric Mean Longitude and the True Solar Time are
always in the normalized ranges, and any finite Solar Azimuth Angle is
in [0, 360); each is produced by the floored-modulo normalization
x - N * floor(x / N) (definitions mod360 and mod1440). -/
theorem normalization_bounds (t : ℤ) (s : SolarElements) :
    (0 ≤ (calcSolar t s).GMLS ∧ (calcSolar t s).GMLS < 360) ∧
    (0 ≤ (calcSolar t s).TST ∧ (calcSolar t s).TST < 1440) ∧
    (∀ a, (calcSolar t s).SAA = some a → 0 ≤ a ∧ a < 360) := by
  refine ⟨mod360_mem _, mod1440_mem _, fun a ha => ?_⟩
  have ha2 : saaOf (jcnOf (jdnOf t s.tzOffset)) s.lat
      (haOf (tstOf t (jcnOf (jdnOf t s.tzOffset)) s.lon s.tzOffset)) = some a := ha
  unfold saaOf at ha2
  rcases Option.bind_eq_some.mp ha2 with ⟨d, _, ha3⟩
  rcases Option.bind_eq_some.mp ha3 with ⟨z, _, ha4⟩
  split at ha4 <;>
    · rcases Option.map_eq_some'.mp ha4 with ⟨v, _, rfl⟩
      exact mod360_mem _

/-- Claim C8: the atmospheric refraction is the piecewise function of
the elevation angle with breakpoints exactly at 85, 5 and -0.575; it
is 0 above 85 degrees, -20.772/tan(elevation) at or below -0.575
degrees, and in every branch the branch value is divided by 3600. -/
theorem refraction_piecewise (t : ℤ) (s : SolarElements) (e : ℝ)
    (he : (calcSolar t s).SEA = some e) :
    (calcSolar t s).AAR = some (aarFn e) ∧
    (85 < e → aarFn e = 0 / 3600) ∧
    (5 < e → e ≤ 85 →
      aarFn e = (58.1 / Real.tan (e * DEG_TO_RAD) -
        0.07 / Real.tan (e * DEG_TO_RAD) ^ 3 +
        0.000086 / Real.tan (e * DEG_TO_RAD) ^ 5) / 3600) ∧
    (-0.575 < e → e ≤ 5 →
      aarFn e = (1735 + e * (-581.2 * e * (103.4 + e * (-12.79 + e * 0.711)))) / 3600) ∧
    (e ≤ -0.575 → aarFn e = -20.772 / Real.tan (e * DEG_TO_RAD) / 3600) := by
  have hsea : seaOf (jcnOf (jdnOf t s.tzOffset)) s.lat
      (haOf (tstOf t (jcnOf (jdnOf t s.tzOffset)) s.lon s.tzOffset)) = some e := he
  refine ⟨?_, ?_, ?_, ?_, ?_⟩
  · show (seaOf _ _ _).map aarFn = some (aarFn e)
    rw [hsea]
    rfl
  · intro h85
    unfold aarFn
    rw [if_pos h85]
  · intro h5 h85
    unfold aarFn
    rw [if_neg (by linarith), if_pos h5]
  · intro hlo hhi
    unfold aarFn
    rw [if_neg (by linarith), if_neg (by linarith), if_pos hlo]
  · intro hlo
    unfold aarFn
    rw [if_neg (by linarith), if_neg (by linarith), if_neg (by linarith)]

/-- Claim C5: whenever the Hour Angle Sunrise is finite, Sunrise,
SolarNoon and Sunset are ordered, and Sunset minus Sunrise equals
exactly 60 times the day length in minutes (the claim only asks for
equality up to floating-point tolerance). -/
theorem day_membership (t : ℤ) (s : SolarElements) (h : ℝ)
    (hh : (calcSolar t s).HAS = some h) :
    ∃ r st d, (calcSolar t s).Sunrise = some r ∧ (calcSolar t s).Sunset = some st ∧
      (calcSolar t s).SunDuration = some d ∧
      r ≤ (calcSolar t s).SolarNoonDays * 86400 ∧
      (calcSolar t s).SolarNoonDays * 86400 ≤ st ∧
      st - r = 60 * d := by
  have hh2 : hasOf (jcnOf (jdnOf t s.tzOffset)) s.lat = some h := hh
  have hnn : 0 ≤ h := hasOf_nonneg hh2
  refine ⟨((unixDaysOf t : ℝ) + (solarNoonfracOf (jcnOf (jdnOf t s.tzOffset)) s.lon -
      h * 4 / 1440) + (s.tzOffset : ℝ) / 24) * 86400,
    ((unixDaysOf t : ℝ) + (solarNoonfracOf (jcnOf (jdnOf t s.tzOffset)) s.lon +
      h * 4 / 1440) + (s.tzOffset : ℝ) / 24) * 86400, 8 * h, ?_, ?_, ?_, ?_, ?_, ?_⟩
  · show sunriseOf t s.tzOffset (jcnOf (jdnOf t s.tzOffset)) s.lat s.lon = _
    unfold sunriseOf
    rw [hh2]
    rfl
  · show sunsetOf t s.tzOffset (jcnOf (jdnOf t s.tzOffset)) s.lat s.lon = _
    unfold sunsetOf
    rw [hh2]
    rfl
  · show (hasOf (jcnOf (jdnOf t s.tzOffset)) s.lat).map (fun x => 8 * x) = _
    rw [hh2]
    rfl
  · show _ ≤ solarNoonDaysOf t s.tzOffset (jcnOf (jdnOf t s.tzOffset)) s.lon * 86400
    unfold solarNoonDaysOf
    nlinarith
  · show solarNoonDaysOf t s.tzOffset (jcnOf (jdnOf t s.tzOffset)) s.lon * 86400 ≤ _
    unfold solarNoonDaysOf
    nlinarith
  · ring

end Solarlib

namespace Solarlib

theorem sin_lip (x y : ℝ) : |Real.sin x - Real.sin y| ≤ |x - y| := by
  rw [Real.sin_sub_sin, abs_mul, abs_mul]
  have h1 : |Real.sin ((x - y) / 2)| ≤ |(x - y) / 2| := Real.abs_sin_le_abs
  have h2 : |Real.cos ((x + y) / 2)| ≤ 1 := Real.abs_cos_le_one _
  have h4 : |(x - y) / 2| = |x - y| / 2 := by
    rw [abs_div]
    norm_num
  rw [h4] at h1
  have h5 : (0 : ℝ) ≤ |Real.sin ((x - y) / 2)| := abs_nonneg _
  have h6 : (0 : ℝ) ≤ |x - y| := abs_nonneg _
  have h7 : |(2 : ℝ)| = 2 := by norm_num
  rw [h7]
  nlinarith

theorem cos_lip (x y : ℝ) : |Real.cos x - Real.cos y| ≤ |x - y| := by
  rw [Real.cos_sub_cos, abs_mul, abs_mul]
  have h1 : |Real.sin ((x - y) / 2)| ≤ |(x - y) / 2| := Real.abs_sin_le_abs
  have h2 : |Real.sin ((x + y) / 2)| ≤ 1 := Real.abs_sin_le_one _
  have h4 : |(x - y) / 2| = |x - y| / 2 := by
    rw [abs_div]
    norm_num
  rw [h4] at h1
  have h5 : (0 : ℝ) ≤ |Real.sin ((x - y) / 2)| := abs_nonneg _
  have h6 : (0 : ℝ) ≤ |x - y| := abs_nonneg _
  have h7 : |(-2 : ℝ)| = 2 := by norm_num
  rw [h7]
  nlinarith [abs_nonneg (Real.sin ((x + y) / 2))]

theorem sin_taylor (r : ℝ) (hr : |r| ≤ 1) :
    r - r ^ 3 / 6 - r ^ 4 * (5 / 96) ≤ Real.sin r ∧
      Real.sin r ≤ r - r ^ 3 / 6 + r ^ 4 * (5 / 96) := by
  have h := Real.sin_bound hr
  have h2 : |r| ^ 4 = r ^ 4 := by
    rw [← abs_pow]
    exact abs_of_nonneg (by positivity)
  rw [h2, abs_le] at h
  constructor <;> linarith [h.1, h.2]

theorem cos_taylor (r : ℝ) (hr : |r| ≤ 1) :
    1 - r ^ 2 / 2 - r ^ 4 * (5 / 96) ≤ Real.cos r ∧
      Real.cos r ≤ 1 - r ^ 2 / 2 + r ^ 4 * (5 / 96) := by
  have h := Real.cos_bound hr
  have h2 : |r| ^ 4 = r ^ 4 := by
    rw [← abs_pow]
    exact abs_of_nonneg (by positivity)
  rw [h2, abs_le] at h
  constructor <;> linarith [h.1, h.2]

theorem sin_near {x r e lo hi : ℝ} (hr1 : -1 ≤ r) (hr2 : r ≤ 1) (hxr : |x - r| ≤ e)
    (hlo : lo ≤ r - r ^ 3 / 6 - r ^ 4 * (5 / 96) - e)
    (hhi : r - r ^ 3 / 6 + r ^ 4 * (5 / 96) + e ≤ hi) :
    lo ≤ Real.sin x ∧ Real.sin x ≤ hi := by
  have ht := sin_taylor r (abs_le.mpr ⟨hr1, hr2⟩)
  have hl : |Real.sin x - Real.sin r| ≤ e := le_trans (sin_lip x r) hxr
  rw [abs_le] at hl
  constructor <;> linarith [ht.1, ht.2, hl.1, hl.2]

theorem cos_near {x r e lo hi : ℝ} (hr1 : -1 ≤ r) (hr2 : r ≤ 1) (hxr : |x - r| ≤ e)
    (hlo : lo ≤ 1 - r ^ 2 / 2 - r ^ 4 * (5 / 96) - e)
    (hhi : 1 - r ^ 2 / 2 + r ^ 4 * (5 / 96) + e ≤ hi) :
    lo ≤ Real.cos x ∧ Real.cos x ≤ hi := by
  have ht := cos_taylor r (abs_le.mpr ⟨hr1, hr2⟩)
  have hl : |Real.cos x - Real.cos r| ≤ e := le_trans (cos_lip x r) hxr
  rw [abs_le] at hl
  constructor <;> linarith [ht.1, ht.2, hl.1, hl.2]

theorem ratpi_near {x q r e w d : ℝ} (hq1 : -2 ≤ q) (hq2 : q ≤ 2) (hw : |x - q| ≤ w)
    (h1 : q * 3.14159265358979323846 - r ≤ d)
    (h2 : r - q * 3.14159265358979323846 ≤ d)
    (h : d + w * 3.1415927 + 0.0000000001 ≤ e) :
    |x * Real.pi - r| ≤ e := by
  have hpi1 := Real.pi_gt_d20
  have hpi2 := Real.pi_lt_d20
  have hw0 : (0 : ℝ) ≤ w := le_trans (abs_nonneg _) hw
  have e1 : x * Real.pi - r =
      (x - q) * Real.pi + q * (Real.pi - 3.14159265358979323846) +
        (q * 3.14159265358979323846 - r) := by ring
  have hb2 : |(x - q) * Real.pi| ≤ w * 3.1415927 := by
    rw [abs_mul, abs_of_pos Real.pi_pos]
    nlinarith [abs_nonneg (x - q)]
  have hb3 : |q * (Real.pi - 3.14159265358979323846)| ≤ 0.0000000001 := by
    rw [abs_mul]
    have hq : |q| ≤ 2 := abs_le.mpr ⟨hq1, hq2⟩
    have ha : |Real.pi - 3.14159265358979323846| ≤ 0.00000000000000000001 := by
      rw [abs_le]
      constructor <;> linarith
    nlinarith [abs_nonneg q, abs_nonneg (Real.pi - 3.14159265358979323846)]
  have hb4 : |q * 3.14159265358979323846 - r| ≤ d :=
    abs_le.mpr ⟨by linarith, by linarith⟩
  calc |x * Real.pi - r|
      ≤ |(x - q) * Real.pi| + |q * (Real.pi - 3.14159265358979323846)| +
        |q * 3.14159265358979323846 - r| := by
        rw [e1]
        exact abs_add_three _ _ _
    _ ≤ e := by linarith

theorem timeFracDay_T0 : timeFracDayOf T0 = 3 / 4 := by
  have h1 : (secondOf T0).tdiv 60 = 0 := by decide
  have h2 : minuteOf T0 = 0 := by decide
  have h3 : hourOf T0 = 18 := by decide
  unfold timeFracDayOf
  rw [h1, h2, h3]
  norm_num

theorem jcn_T0 : jcnOf (jdnOf T0 0) = jcnT0 := by
  unfold jcnOf jdnOf julianUnixEpoch jcnT0
  have h1 : unixDaysOf T0 = 15695 := by decide
  rw [h1, timeFracDay_T0]
  norm_num

theorem gmls_T0 : gmlsOf jcnT0 = 7222954100595366961 / 26681512500000000 := by
  unfold gmlsOf mod360 gmls0Of
  have hfloor : ⌊(280.46646 + jcnT0 * (36000.76983 + jcnT0 * 0.0003032)) / 360⌋ = 13 := by
    rw [Int.floor_eq_iff]
    constructor
    · unfold jcnT0
      norm_num
    · unfold jcnT0
      norm_num
  rw [hfloor]
  unfold jcnT0
  norm_num

end Solarlib

namespace Solarlib

theorem sinG1_T0 : -0.21571 ≤ Real.sin (gmasOf jcnT0 * DEG_TO_RAD) ∧ Real.sin (gmasOf jcnT0 * DEG_TO_RAD) ≤ -0.21547 := by
  have hred : gmasOf jcnT0 * DEG_TO_RAD =
      (gmasOf jcnT0 / 180 - 28) * Real.pi + ((14 : ℤ) : ℝ) * (2 * Real.pi) := by
    unfold DEG_TO_RAD
    push_cast
    ring
  rw [hred, Real.sin_add_int_mul_two_pi]
  apply sin_near (r := -0.21729973) (e := 0.00000002)
  · norm_num
  · norm_num
  · apply ratpi_near (q := gmasOf jcnT0 / 180 - 28) (w := 0) (d := 0.000000005)
    ·
      unfold gmasOf jcnT0
      norm_num
    ·
      unfold gmasOf jcnT0
      norm_num
    · rw [sub_self, abs_zero]
    ·
      unfold gmasOf jcnT0
      norm_num
    ·
      unfold gmasOf jcnT0
      norm_num
    · norm_num
  · norm_num
  · norm_num

theorem sinG2_T0 : -0.42278 ≤ Real.sin (2 * gmasOf jcnT0 * DEG_TO_RAD) ∧ Real.sin (2 * gmasOf jcnT0 * DEG_TO_RAD) ≤ -0.41906 := by
  have hred : 2 * gmasOf jcnT0 * DEG_TO_RAD =
      (2 * gmasOf jcnT0 / 180 - 56) * Real.pi + ((28 : ℤ) : ℝ) * (2 * Real.pi) := by
    unfold DEG_TO_RAD
    push_cast
    ring
  rw [hred, Real.sin_add_int_mul_two_pi]
  apply sin_near (r := -0.43459947) (e := 0.00000002)
  · norm_num
  · norm_num
  · apply ratpi_near (q := 2 * gmasOf jcnT0 / 180 - 56) (w := 0) (d := 0.000000005)
    ·
      unfold gmasOf jcnT0
      norm_num
    ·
      unfold gmasOf jcnT0
      norm_num
    · rw [sub_self, abs_zero]
    ·
      unfold gmasOf jcnT0
      norm_num
    ·
      unfold gmasOf jcnT0
      norm_num
    · norm_num
  · norm_num
  · norm_num

theorem sinG3_T0 : -0.61514 ≤ Real.sin (3 * gmasOf jcnT0 * DEG_TO_RAD) ∧ Real.sin (3 * gmasOf jcnT0 * DEG_TO_RAD) ≤ -0.59631 := by
  have hred : 3 * gmasOf jcnT0 * DEG_TO_RAD =
      (3 * gmasOf jcnT0 / 180 - 84) * Real.pi + ((42 : ℤ) : ℝ) * (2 * Real.pi) := by
    unfold DEG_TO_RAD
    push_cast
    ring
  rw [hred, Real.sin_add_int_mul_two_pi]
  apply sin_near (r := -0.65189920) (e := 0.00000002)
  · norm_num
  · norm_num
  · apply ratpi_near (q := 3 * gmasOf jcnT0 / 180 - 84) (w := 0) (d := 0.000000005)
    ·
      unfold gmasOf jcnT0
      norm_num
    ·
      unfold gmasOf jcnT0
      norm_num
    · rw [sub_self, abs_zero]
    ·
      unfold gmasOf jcnT0
      norm_num
    ·
      unfold gmasOf jcnT0
      norm_num
    · norm_num
  · norm_num
  · norm_num

theorem sinL4_T0 : 0.0495513 ≤ Real.sin (4 * (gmlsOf jcnT0 * DEG_TO_RAD)) ∧ Real.sin (4 * (gmlsOf jcnT0 * DEG_TO_RAD)) ≤ 0.0495525 := by
  rw [gmls_T0]
  have hred : 4 * ((7222954100595366961 / 26681512500000000 : ℝ) * DEG_TO_RAD) =
      (4 * (7222954100595366961 / 26681512500000000 : ℝ) / 180 - 6) * Real.pi + ((3 : ℤ) : ℝ) * (2 * Real.pi) := by
    unfold DEG_TO_RAD
    push_cast
    ring
  rw [hred, Real.sin_add_int_mul_two_pi]
  apply sin_near (r := 0.04957220) (e := 0.00000002)
  · norm_num
  · norm_num
  · apply ratpi_near (q := 4 * (7222954100595366961 / 26681512500000000 : ℝ) / 180 - 6) (w := 0) (d := 0.000000005)
    ·
      norm_num
    ·
      norm_num
    · rw [sub_self, abs_zero]
    ·
      norm_num
    ·
      norm_num
    · norm_num
  · norm_num
  · norm_num


end Solarlib

namespace Solarlib

theorem sinW_T0 : -0.84573 ≤ Real.sin ((125.04 - 1934.136 * jcnT0) * DEG_TO_RAD) ∧ Real.sin ((125.04 - 1934.136 * jcnT0) * DEG_TO_RAD) ≤ -0.76272 := by
  have hred : (125.04 - 1934.136 * jcnT0) * DEG_TO_RAD =
      (((125.04 - 1934.136 * jcnT0) / 180 + 1) * Real.pi + Real.pi) + ((-1 : ℤ) : ℝ) * (2 * Real.pi) := by
    unfold DEG_TO_RAD
    push_cast
    ring
  rw [hred, Real.sin_add_int_mul_two_pi, Real.sin_add_pi]
  have hb : 0.76272 ≤ Real.sin (((125.04 - 1934.136 * jcnT0) / 180 + 1) * Real.pi) ∧ Real.sin (((125.04 - 1934.136 * jcnT0) / 180 + 1) * Real.pi) ≤ 0.84573 := by
    apply sin_near (r := 0.94477914) (e := 0.00000002)
    · norm_num
    · norm_num
    · apply ratpi_near (q := (125.04 - 1934.136 * jcnT0) / 180 + 1) (w := 0) (d := 0.000000005)
      · unfold jcnT0
        norm_num
      · unfold jcnT0
        norm_num
      · rw [sub_self, abs_zero]
      · unfold jcnT0
        norm_num
      · unfold jcnT0
        norm_num
      · norm_num
    · norm_num
    · norm_num
  constructor <;> linarith [hb.1, hb.2]

theorem cosW_T0 : -0.59520 ≤ Real.cos ((125.04 - 1934.136 * jcnT0) * DEG_TO_RAD) ∧ Real.cos ((125.04 - 1934.136 * jcnT0) * DEG_TO_RAD) ≤ -0.51219 := by
  have hred : (125.04 - 1934.136 * jcnT0) * DEG_TO_RAD =
      (((125.04 - 1934.136 * jcnT0) / 180 + 1) * Real.pi + Real.pi) + ((-1 : ℤ) : ℝ) * (2 * Real.pi) := by
    unfold DEG_TO_RAD
    push_cast
    ring
  rw [hred, Real.cos_add_int_mul_two_pi, Real.cos_add_pi]
  have hb : 0.51219 ≤ Real.cos (((125.04 - 1934.136 * jcnT0) / 180 + 1) * Real.pi) ∧ Real.cos (((125.04 - 1934.136 * jcnT0) / 180 + 1) * Real.pi) ≤ 0.59520 := by
    apply cos_near (r := 0.94477914) (e := 0.00000002)
    · norm_num
    · norm_num
    · apply ratpi_near (q := (125.04 - 1934.136 * jcnT0) / 180 + 1) (w := 0) (d := 0.000000005)
      · unfold jcnT0
        norm_num
      · unfold jcnT0
        norm_num
      · rw [sub_self, abs_zero]
      · unfold jcnT0
        norm_num
      · unfold jcnT0
        norm_num
      · norm_num
    · norm_num
    · norm_num
  constructor <;> linarith [hb.1, hb.2]

theorem sinL2_T0 : -0.0247837 ≤ Real.sin (2 * (gmlsOf jcnT0 * DEG_TO_RAD)) ∧ Real.sin (2 * (gmlsOf jcnT0 * DEG_TO_RAD)) ≤ -0.0247835 := by
  rw [gmls_T0]
  have hred : 2 * ((7222954100595366961 / 26681512500000000 : ℝ) * DEG_TO_RAD) =
      ((2 * (7222954100595366961 / 26681512500000000 : ℝ) / 180 - 3) * Real.pi + Real.pi) + ((1 : ℤ) : ℝ) * (2 * Real.pi) := by
    unfold DEG_TO_RAD
    push_cast
    ring
  rw [hred, Real.sin_add_int_mul_two_pi, Real.sin_add_pi]
  have hb : 0.0247835 ≤ Real.sin ((2 * (7222954100595366961 / 26681512500000000 : ℝ) / 180 - 3) * Real.pi) ∧ Real.sin ((2 * (7222954100595366961 / 26681512500000000 : ℝ) / 180 - 3) * Real.pi) ≤ 0.0247837 := by
    apply sin_near (r := 0.02478610) (e := 0.00000002)
    · norm_num
    · norm_num
    · apply ratpi_near (q := 2 * (7222954100595366961 / 26681512500000000 : ℝ) / 180 - 3) (w := 0) (d := 0.000000005)
      · norm_num
      · norm_num
      · rw [sub_self, abs_zero]
      · norm_num
      · norm_num
      · norm_num
    · norm_num
    · norm_num
  constructor <;> linarith [hb.1, hb.2]

theorem cosL2_T0 : -0.9996929 ≤ Real.cos (2 * (gmlsOf jcnT0 * DEG_TO_RAD)) ∧ Real.cos (2 * (gmlsOf jcnT0 * DEG_TO_RAD)) ≤ -0.9996927 := by
  rw [gmls_T0]
  have hred : 2 * ((7222954100595366961 / 26681512500000000 : ℝ) * DEG_TO_RAD) =
      ((2 * (7222954100595366961 / 26681512500000000 : ℝ) / 180 - 3) * Real.pi + Real.pi) + ((1 : ℤ) : ℝ) * (2 * Real.pi) := by
    unfold DEG_TO_RAD
    push_cast
    ring
  rw [hred, Real.cos_add_int_mul_two_pi, Real.cos_add_pi]
  have hb : 0.9996927 ≤ Real.cos ((2 * (7222954100595366961 / 26681512500000000 : ℝ) / 180 - 3) * Real.pi) ∧ Real.cos ((2 * (7222954100595366961 / 26681512500000000 : ℝ) / 180 - 3) * Real.pi) ≤ 0.9996929 := by
    apply cos_near (r := 0.02478610) (e := 0.00000002)
    · norm_num
    · norm_num
    · apply ratpi_near (q := 2 * (7222954100595366961 / 26681512500000000 : ℝ) / 180 - 3) (w := 0) (d := 0.000000005)
      · norm_num
      · norm_num
      · rw [sub_self, abs_zero]
      · norm_num
      · norm_num
      · norm_num
    · norm_num
    · norm_num
  constructor <;> linarith [hb.1, hb.2]

end Solarlib

namespace Solarlib

theorem cos75v_T0 : 0.25856 ≤ Real.cos (75 * DEG_TO_RAD) ∧
    Real.cos (75 * DEG_TO_RAD) ≤ 0.25906 := by
  have hred : (75 : ℝ) * DEG_TO_RAD = Real.pi / 2 - (1 / 12 : ℝ) * Real.pi := by
    unfold DEG_TO_RAD
    ring
  rw [hred, Real.cos_pi_div_two_sub]
  apply sin_near (r := 0.26179939) (e := 0.00000002)
  · norm_num
  · norm_num
  · apply ratpi_near (q := (1 / 12 : ℝ)) (w := 0) (d := 0.000000005)
    · norm_num
    · norm_num
    · rw [sub_self, abs_zero]
    · norm_num
    · norm_num
    · norm_num
  · norm_num
  · norm_num

theorem sin75v_T0 : 0.96548 ≤ Real.sin (75 * DEG_TO_RAD) ∧
    Real.sin (75 * DEG_TO_RAD) ≤ 0.96598 := by
  have hred : (75 : ℝ) * DEG_TO_RAD = Real.pi / 2 - (1 / 12 : ℝ) * Real.pi := by
    unfold DEG_TO_RAD
    ring
  rw [hred, Real.sin_pi_div_two_sub]
  apply cos_near (r := 0.26179939) (e := 0.00000002)
  · norm_num
  · norm_num
  · apply ratpi_near (q := (1 / 12 : ℝ)) (w := 0) (d := 0.000000005)
    · norm_num
    · norm_num
    · rw [sub_self, abs_zero]
    · norm_num
    · norm_num
    · norm_num
  · norm_num
  · norm_num

theorem cos90833_T0 : -0.014539 ≤ Real.cos (90.833 * DEG_TO_RAD) ∧
    Real.cos (90.833 * DEG_TO_RAD) ≤ -0.014538 := by
  have hred : (90.833 : ℝ) * DEG_TO_RAD = (833 / 180000 : ℝ) * Real.pi + Real.pi / 2 := by
    unfold DEG_TO_RAD
    ring
  rw [hred, Real.cos_add_pi_div_two]
  have hb : 0.014538 ≤ Real.sin ((833 / 180000 : ℝ) * Real.pi) ∧
      Real.sin ((833 / 180000 : ℝ) * Real.pi) ≤ 0.014539 := by
    apply sin_near (r := 0.01453859) (e := 0.00000002)
    · norm_num
    · norm_num
    · apply ratpi_near (q := (833 / 180000 : ℝ)) (w := 0) (d := 0.000000005)
      · norm_num
      · norm_num
      · rw [sub_self, abs_zero]
      · norm_num
      · norm_num
      · norm_num
    · norm_num
    · norm_num
  constructor <;> linarith [hb.1, hb.2]

theorem sec_T0 : -0.42149 ≤ secOf jcnT0 ∧ secOf jcnT0 ≤ -0.42094 := by
  have h1 := sinG1_T0
  have h2 := sinG2_T0
  have h3 := sinG3_T0
  unfold secOf
  unfold jcnT0 at h1 h2 h3 ⊢
  constructor <;> linarith [h1.1, h1.2, h2.1, h2.2, h3.1, h3.2]

theorem sal_T0 : 270.2865 ≤ salOf jcnT0 ∧ salOf jcnT0 ≤ 270.2875 := by
  have hs := sec_T0
  have hw := sinW_T0
  unfold salOf stlOf
  rw [gmls_T0]
  constructor <;> linarith [hs.1, hs.2, hw.1, hw.2]

theorem oc_T0 : 23.43608 ≤ ocOf jcnT0 ∧ ocOf jcnT0 ≤ 23.43630 := by
  have hc := cosW_T0
  unfold ocOf moeOf
  unfold jcnT0 at hc ⊢
  constructor <;> linarith [hc.1, hc.2]

theorem sinOC_T0 : 0.396170 ≤ Real.sin (ocOf jcnT0 * DEG_TO_RAD) ∧
    Real.sin (ocOf jcnT0 * DEG_TO_RAD) ≤ 0.399095 := by
  have hoc := oc_T0
  have hred : ocOf jcnT0 * DEG_TO_RAD = (ocOf jcnT0 / 180) * Real.pi := by
    unfold DEG_TO_RAD
    ring
  rw [hred]
  apply sin_near (r := 0.40903868) (e := 0.000004)
  · norm_num
  · norm_num
  · apply ratpi_near (q := (23.43619 / 180 : ℝ)) (w := 0.00000123) (d := 0.0000000005)
    · norm_num
    · norm_num
    · rw [abs_le]
      constructor
      · linarith [hoc.1]
      · linarith [hoc.2]
    · norm_num
    · norm_num
    · norm_num
  · norm_num
  · norm_num

theorem sinSAL_T0 : -1 ≤ Real.sin (salOf jcnT0 * DEG_TO_RAD) ∧
    Real.sin (salOf jcnT0 * DEG_TO_RAD) ≤ -0.9999874 := by
  have hs := sal_T0
  have hkey : Real.sin (salOf jcnT0 * DEG_TO_RAD) =
      -Real.cos ((salOf jcnT0 / 180 - 3 / 2) * Real.pi) := by
    have h1 : (salOf jcnT0 / 180 - 3 / 2) * Real.pi =
        salOf jcnT0 * DEG_TO_RAD + Real.pi / 2 - 2 * Real.pi := by
      unfold DEG_TO_RAD
      ring
    rw [h1, Real.cos_sub_two_pi, Real.cos_add_pi_div_two, neg_neg]
  rw [hkey]
  have hz1 : (0 : ℝ) ≤ (salOf jcnT0 / 180 - 3 / 2) * Real.pi := by
    nlinarith [hs.1, Real.pi_pos]
  have hz2 : (salOf jcnT0 / 180 - 3 / 2) * Real.pi ≤ 0.0050181 := by
    nlinarith [hs.1, hs.2, Real.pi_lt_d6, Real.pi_gt_d6]
  constructor
  · linarith [Real.cos_le_one ((salOf jcnT0 / 180 - 3 / 2) * Real.pi)]
  · have hc := Real.one_sub_sq_div_two_le_cos
      (x := (salOf jcnT0 / 180 - 3 / 2) * Real.pi)
    nlinarith [hc, hz1, hz2]

theorem p_T0 : -0.39910 ≤ pT0 ∧ pT0 ≤ -0.39616 := by
  have h1 := sinOC_T0
  have h2 := sinSAL_T0
  unfold pT0
  constructor
  · nlinarith [h1.1, h1.2, h2.1, h2.2]
  · nlinarith [h1.1, h1.2, h2.1, h2.2]

theorem cd_T0 : 0.91690 ≤ Real.sqrt (1 - pT0 ^ 2) ∧
    Real.sqrt (1 - pT0 ^ 2) ≤ 0.91819 := by
  have hp := p_T0
  constructor
  · have h1 : (0.91690 : ℝ) = Real.sqrt (0.91690 ^ 2) := (Real.sqrt_sq (by norm_num)).symm
    rw [h1]
    apply Real.sqrt_le_sqrt
    nlinarith [hp.1, hp.2]
  · have h1 : (0.91819 : ℝ) = Real.sqrt (0.91819 ^ 2) := (Real.sqrt_sq (by norm_num)).symm
    rw [h1]
    apply Real.sqrt_le_sqrt
    nlinarith [hp.1, hp.2]

theorem sdecOf_T0 : sdecOf jcnT0 = some dT0 := by
  have hp := p_T0
  unfold pT0 at hp
  unfold sdecOf asinD dT0 pT0
  rw [if_pos ⟨by linarith [hp.1], by linarith [hp.2]⟩]
  rfl

theorem dT0_mul : dT0 * DEG_TO_RAD = Real.arcsin pT0 := by
  unfold dT0 RAD_TO_DEG DEG_TO_RAD
  field_simp

theorem dT0_sin : Real.sin (dT0 * DEG_TO_RAD) = pT0 := by
  rw [dT0_mul]
  have hp := p_T0
  exact Real.sin_arcsin (by linarith [hp.1]) (by linarith [hp.2])

theorem dT0_cos : Real.cos (dT0 * DEG_TO_RAD) = Real.sqrt (1 - pT0 ^ 2) := by
  rw [dT0_mul]
  exact Real.cos_arcsin pT0

theorem dT0_tan : Real.tan (dT0 * DEG_TO_RAD) = pT0 / Real.sqrt (1 - pT0 ^ 2) := by
  rw [Real.tan_eq_sin_div_cos, dT0_sin, dT0_cos]

end Solarlib


namespace Solarlib

set_option maxHeartbeats 1000000 in
theorem hasArg75_gt_one : 1 < hasArg75 := by
  unfold hasArg75
  rw [dT0_cos, dT0_tan, Real.tan_eq_sin_div_cos]
  have hA := cos90833_T0
  have hc75 := cos75v_T0
  have hs75 := sin75v_T0
  have hcd := cd_T0
  have hp := p_T0
  set A := Real.cos (90.833 * DEG_TO_RAD) with hA1
  set c := Real.cos (75 * DEG_TO_RAD) with hc1
  set s := Real.sin (75 * DEG_TO_RAD) with hs1
  set q := Real.sqrt (1 - pT0 ^ 2) with hq1d
  set p := pT0 with hp1
  have hcpos : (0 : ℝ) < c := by linarith [hc75.1]
  have hqpos : (0 : ℝ) < q := by linarith [hcd.1]
  have hD : 0.23707 ≤ c * q ∧ c * q ≤ 0.23787 := by
    constructor
    · nlinarith [hc75.1, hc75.2, hcd.1, hcd.2]
    · nlinarith [hc75.1, hc75.2, hcd.1, hcd.2]
  have hDpos : (0 : ℝ) < c * q := by linarith [hD.1]
  have hq1 : -0.06133 ≤ A / (c * q) := by
    rw [le_div_iff₀ hDpos]
    nlinarith [hA.1, hD.1, hD.2]
  have ht75l : 3.72675 ≤ s / c := by
    rw [le_div_iff₀ hcpos]
    nlinarith [hs75.1, hc75.2]
  have ht75u : s / c ≤ 3.73610 := by
    rw [div_le_iff₀ hcpos]
    nlinarith [hs75.2, hc75.1]
  have htdl : -0.43528 ≤ p / q := by
    rw [le_div_iff₀ hqpos]
    nlinarith [hp.1, hcd.1]
  have htdu : p / q ≤ -0.43144 := by
    rw [div_le_iff₀ hqpos]
    nlinarith [hp.2, hcd.2]
  have hprod : s / c * (p / q) ≤ -1.60786 := by
    nlinarith [ht75l, ht75u, htdl, htdu]
  linarith [hq1, hprod]

set_option maxHeartbeats 1000000 in
theorem hasArg0_mem : -1 ≤ hasArg0 ∧ hasArg0 ≤ 1 := by
  unfold hasArg0
  rw [dT0_cos, show (0 : ℝ) * DEG_TO_RAD = 0 from zero_mul _, Real.cos_zero,
    Real.tan_zero, one_mul, zero_mul, sub_zero]
  have hA := cos90833_T0
  have hcd := cd_T0
  set A := Real.cos (90.833 * DEG_TO_RAD) with hA1
  set q := Real.sqrt (1 - pT0 ^ 2) with hq1d
  have hqpos : (0 : ℝ) < q := by linarith [hcd.1]
  constructor
  · rw [le_div_iff₀ hqpos]
    nlinarith [hA.1, hcd.1, hcd.2]
  · rw [div_le_iff₀ hqpos]
    nlinarith [hA.2, hcd.1, hcd.2]

theorem hasOf_T0_75 : hasOf jcnT0 75 = none := by
  unfold hasOf
  rw [sdecOf_T0]
  show (acosD hasArg75).map _ = none
  unfold acosD
  rw [if_neg]
  · rfl
  · intro hmem
    exact absurd hasArg75_gt_one (not_lt.mpr hmem.2)

theorem hasOf_T0_0 : hasOf jcnT0 0 = some hT0 := by
  unfold hasOf
  rw [sdecOf_T0]
  show (acosD hasArg0).map _ = some hT0
  unfold acosD
  rw [if_pos ⟨hasArg0_mem.1, hasArg0_mem.2⟩]
  rfl

end Solarlib

namespace Solarlib

set_option maxHeartbeats 1000000 in
theorem tanv_T0 : 0.20731 ≤ Real.tan (ocOf jcnT0 / 2 * DEG_TO_RAD) ∧
    Real.tan (ocOf jcnT0 / 2 * DEG_TO_RAD) ≤ 0.20755 := by
  have hoc := oc_T0
  have hred : ocOf jcnT0 / 2 * DEG_TO_RAD = (ocOf jcnT0 / 360) * Real.pi := by
    unfold DEG_TO_RAD
    ring
  rw [hred, Real.tan_eq_sin_div_cos]
  have hs : 0.202999 ≤ Real.sin (ocOf jcnT0 / 360 * Real.pi) ∧
      Real.sin (ocOf jcnT0 / 360 * Real.pi) ≤ 0.203188 := by
    apply sin_near (r := 0.20451934) (e := 0.0000025)
    · norm_num
    · norm_num
    · apply ratpi_near (q := (23.43619 / 360 : ℝ)) (w := 0.00000062) (d := 0.0000000005)
      · norm_num
      · norm_num
      · rw [abs_le]
        constructor
        · linarith [hoc.1]
        · linarith [hoc.2]
      · norm_num
      · norm_num
      · norm_num
    · norm_num
    · norm_num
  have hc : 0.978992 ≤ Real.cos (ocOf jcnT0 / 360 * Real.pi) ∧
      Real.cos (ocOf jcnT0 / 360 * Real.pi) ≤ 0.979180 := by
    apply cos_near (r := 0.20451934) (e := 0.0000025)
    · norm_num
    · norm_num
    · apply ratpi_near (q := (23.43619 / 360 : ℝ)) (w := 0.00000062) (d := 0.0000000005)
      · norm_num
      · norm_num
      · rw [abs_le]
        constructor
        · linarith [hoc.1]
        · linarith [hoc.2]
      · norm_num
      · norm_num
      · norm_num
    · norm_num
    · norm_num
  set s := Real.sin (ocOf jcnT0 / 360 * Real.pi) with hse
  set c := Real.cos (ocOf jcnT0 / 360 * Real.pi) with hce
  have hcpos : (0 : ℝ) < c := by linarith [hc.1]
  constructor
  · rw [le_div_iff₀ hcpos]
    nlinarith [hs.1, hc.2]
  · rw [div_le_iff₀ hcpos]
    nlinarith [hs.2, hc.1]

theorem vy_T0 : 0.042977 ≤ vyOf jcnT0 ∧ vyOf jcnT0 ≤ 0.043078 := by
  have ht := tanv_T0
  unfold vyOf
  constructor <;> nlinarith [ht.1, ht.2]

theorem eeo_T0 : 0.0167031 ≤ eeoOf jcnT0 ∧ eeoOf jcnT0 ≤ 0.0167032 := by
  unfold eeoOf jcnT0
  constructor <;> norm_num

theorem rad_to_deg_mem : (57.29577 : ℝ) ≤ RAD_TO_DEG ∧ RAD_TO_DEG ≤ 57.29580 := by
  unfold RAD_TO_DEG
  constructor
  · rw [le_div_iff₀ Real.pi_pos]
    nlinarith [Real.pi_lt_d6]
  · rw [div_le_iff₀ Real.pi_pos]
    nlinarith [Real.pi_gt_d6]

theorem mul_mem_pp (x y a b c d : ℝ) (ha : 0 ≤ a) (hc : 0 ≤ c)
    (hx1 : a ≤ x) (hx2 : x ≤ b) (hy1 : c ≤ y) (hy2 : y ≤ d) :
    a * c ≤ x * y ∧ x * y ≤ b * d := by
  constructor
  · exact mul_le_mul hx1 hy1 hc (le_trans ha hx1)
  · exact mul_le_mul hx2 hy2 (le_trans hc hy1) (le_trans (le_trans ha hx1) hx2)

theorem mul_mem_pn (x y a b c d : ℝ) (ha : 0 ≤ a) (hd : d ≤ 0)
    (hx1 : a ≤ x) (hx2 : x ≤ b) (hy1 : c ≤ y) (hy2 : y ≤ d) :
    b * c ≤ x * y ∧ x * y ≤ a * d := by
  have hb : 0 ≤ b := le_trans (le_trans ha hx1) hx2
  have hy0 : y ≤ 0 := le_trans hy2 hd
  constructor
  · exact le_trans (mul_le_mul_of_nonneg_left hy1 hb) (mul_le_mul_of_nonpos_right hx2 hy0)
  · exact le_trans (mul_le_mul_of_nonpos_right hx1 hy0) (mul_le_mul_of_nonneg_left hy2 ha)

theorem mul_mem_nn (x y a b c d : ℝ) (hb : b ≤ 0) (hd : d ≤ 0)
    (hx1 : a ≤ x) (hx2 : x ≤ b) (hy1 : c ≤ y) (hy2 : y ≤ d) :
    b * d ≤ x * y ∧ x * y ≤ a * c := by
  have hx0 : x ≤ 0 := le_trans hx2 hb
  have hc0 : c ≤ 0 := le_trans (le_trans hy1 hy2) hd
  constructor
  · exact le_trans (mul_le_mul_of_nonpos_right hx2 hd) (mul_le_mul_of_nonpos_left hy2 hx0)
  · exact le_trans (mul_le_mul_of_nonpos_left hy1 hx0) (mul_le_mul_of_nonpos_right hx1 hc0)

set_option maxHeartbeats 1000000 in
theorem eot_combo (vy e s1 s2 s5 c5 s6 R : ℝ)
    (hv1 : 0.042977 ≤ vy) (hv2 : vy ≤ 0.043078)
    (he1 : 0.0167031 ≤ e) (he2 : e ≤ 0.0167032)
    (h11 : -0.21571 ≤ s1) (h12 : s1 ≤ -0.21547)
    (h21 : -0.42278 ≤ s2) (h22 : s2 ≤ -0.41906)
    (h51 : -0.0247837 ≤ s5) (h52 : s5 ≤ -0.0247835)
    (h71 : -0.9996929 ≤ c5) (h72 : c5 ≤ -0.9996927)
    (h81 : 0.0495513 ≤ s6) (h82 : s6 ≤ 0.0495525)
    (hR1 : 57.29577 ≤ R) (hR2 : R ≤ 57.29580) :
    1.5690 ≤ 4 * ((vy * s5 - 2 * e * s1 + 4 * e * vy * s1 * c5 -
      0.5 * vy * vy * s6 - 1.25 * e * e * s2) * R) ∧
    4 * ((vy * s5 - 2 * e * s1 + 4 * e * vy * s1 * c5 -
      0.5 * vy * vy * s6 - 1.25 * e * e * s2) * R) ≤ 1.5745 := by
  have hm1c := mul_mem_pn vy s5 0.042977 0.043078 (-0.0247837) (-0.0247835)
    (by norm_num) (by norm_num) hv1 hv2 h51 h52
  have hm1 : -0.0010678 ≤ vy * s5 ∧ vy * s5 ≤ -0.0010651 := by
    constructor <;> linarith [hm1c.1, hm1c.2]
  have hm2c := mul_mem_pn vy s1 0.042977 0.043078 (-0.21571) (-0.21547)
    (by norm_num) (by norm_num) hv1 hv2 h11 h12
  have hm2 : -0.0092925 ≤ vy * s1 ∧ vy * s1 ≤ -0.0092602 := by
    constructor <;> linarith [hm2c.1, hm2c.2]
  have hm3c := mul_mem_nn (vy * s1) c5 (-0.0092925) (-0.0092602) (-0.9996929) (-0.9996927)
    (by norm_num) (by norm_num) hm2.1 hm2.2 h71 h72
  have hm3 : 0.0092573 ≤ vy * s1 * c5 ∧ vy * s1 * c5 ≤ 0.0092897 := by
    constructor <;> linarith [hm3c.1, hm3c.2]
  have hm4c := mul_mem_pp vy vy 0.042977 0.043078 0.042977 0.043078
    (by norm_num) (by norm_num) hv1 hv2 hv1 hv2
  have hm4 : 0.0018470 ≤ vy * vy ∧ vy * vy ≤ 0.0018558 := by
    constructor <;> linarith [hm4c.1, hm4c.2]
  have hm5c := mul_mem_pp (vy * vy) s6 0.0018470 0.0018558 0.0495513 0.0495525
    (by norm_num) (by norm_num) hm4.1 hm4.2 h81 h82
  have hm5 : 0.0000915 ≤ vy * vy * s6 ∧ vy * vy * s6 ≤ 0.0000920 := by
    constructor <;> linarith [hm5c.1, hm5c.2]
  have hes1c := mul_mem_pn e s1 0.0167031 0.0167032 (-0.21571) (-0.21547)
    (by norm_num) (by norm_num) he1 he2 h11 h12
  have hes1 : -0.0036031 ≤ e * s1 ∧ e * s1 ≤ -0.0035990 := by
    constructor <;> linarith [hes1c.1, hes1c.2]
  have hem3c := mul_mem_pp e (vy * s1 * c5) 0.0167031 0.0167032 0.0092573 0.0092897
    (by norm_num) (by norm_num) he1 he2 hm3.1 hm3.2
  have hem3 : 0.0001546 ≤ e * (vy * s1 * c5) ∧ e * (vy * s1 * c5) ≤ 0.0001552 := by
    constructor <;> linarith [hem3c.1, hem3c.2]
  have heec := mul_mem_pp e e 0.0167031 0.0167032 0.0167031 0.0167032
    (by norm_num) (by norm_num) he1 he2 he1 he2
  have heesq : 0.0002789 ≤ e * e ∧ e * e ≤ 0.0002790 := by
    constructor <;> linarith [heec.1, heec.2]
  have hee2c := mul_mem_pn (e * e) s2 0.0002789 0.0002790 (-0.42278) (-0.41906)
    (by norm_num) (by norm_num) heesq.1 heesq.2 h21 h22
  have hees2 : -0.0001180 ≤ e * e * s2 ∧ e * e * s2 ≤ -0.0001168 := by
    constructor <;> linarith [hee2c.1, hee2c.2]
  have hS : 0.0068484 ≤ vy * s5 - 2 * e * s1 + 4 * e * vy * s1 * c5 -
      0.5 * vy * vy * s6 - 1.25 * e * e * s2 ∧
      vy * s5 - 2 * e * s1 + 4 * e * vy * s1 * c5 -
      0.5 * vy * vy * s6 - 1.25 * e * e * s2 ≤ 0.0068640 := by
    constructor <;>
      linarith [hm1.1, hm1.2, hes1.1, hes1.2, hem3.1, hem3.2, hm5.1, hm5.2,
        hees2.1, hees2.2]
  have hfc := mul_mem_pp (vy * s5 - 2 * e * s1 + 4 * e * vy * s1 * c5 -
      0.5 * vy * vy * s6 - 1.25 * e * e * s2) R 0.0068484 0.0068640 57.29577 57.29580
    (by norm_num) (by norm_num) hS.1 hS.2 hR1 hR2
  constructor <;> linarith [hfc.1, hfc.2]

theorem eot_T0 : 1.5690 ≤ eotOf jcnT0 ∧ eotOf jcnT0 ≤ 1.5745 := by
  have h1 := sinG1_T0
  have h2 := sinG2_T0
  have h5 := sinL2_T0
  have h7 := cosL2_T0
  have h8 := sinL4_T0
  have hv := vy_T0
  have he := eeo_T0
  have hR := rad_to_deg_mem
  unfold eotOf
  rw [show (2 : ℝ) * (gmasOf jcnT0 * DEG_TO_RAD) = 2 * gmasOf jcnT0 * DEG_TO_RAD from
    (mul_assoc 2 _ _).symm]
  exact eot_combo _ _ _ _ _ _ _ _ hv.1 hv.2 he.1 he.2 h1.1 h1.2 h2.1 h2.2
    h5.1 h5.2 h7.1 h7.2 h8.1 h8.2 hR.1 hR.2

theorem tst_T0 : tstOf T0 jcnT0 0 0 = 1080 + eotOf jcnT0 := by
  unfold tstOf mod1440
  rw [timeFracDay_T0]
  have hx : (3 : ℝ) / 4 * 1440 + eotOf jcnT0 + 4 * 0 - 60 * ((0 : ℤ) : ℝ) =
      1080 + eotOf jcnT0 := by
    push_cast
    ring
  rw [hx]
  have he := eot_T0
  have hfloor : ⌊(1080 + eotOf jcnT0) / 1440⌋ = 0 := by
    rw [Int.floor_eq_iff]
    constructor
    · push_cast
      linarith [he.1]
    · push_cast
      linarith [he.2]
  rw [hfloor]
  push_cast
  ring

theorem ha_T0 : haT0 = (1080 + eotOf jcnT0) / 4 - 180 ∧
    90.3922 ≤ haT0 ∧ haT0 ≤ 90.3937 := by
  have he := eot_T0
  have h1 : haT0 = (1080 + eotOf jcnT0) / 4 - 180 := by
    unfold haT0 haOf
    rw [tst_T0]
    rw [if_neg]
    push_neg
    linarith [he.1]
  refine ⟨h1, ?_, ?_⟩ <;> rw [h1] <;> linarith [he.1, he.2]

set_option maxHeartbeats 1000000 in
theorem cosHA_T0 : -0.0068714 ≤ Real.cos (haT0 * DEG_TO_RAD) ∧
    Real.cos (haT0 * DEG_TO_RAD) ≤ -0.0068450 := by
  have hha := ha_T0
  have hkey : Real.cos (haT0 * DEG_TO_RAD) =
      -Real.sin ((haT0 / 180 - 1 / 2) * Real.pi) := by
    have h1 : (haT0 / 180 - 1 / 2) * Real.pi = haT0 * DEG_TO_RAD - Real.pi / 2 := by
      unfold DEG_TO_RAD
      ring
    rw [h1, Real.sin_sub_pi_div_two, neg_neg]
  rw [hkey]
  have hy1 : 0.0068451 ≤ (haT0 / 180 - 1 / 2) * Real.pi := by
    nlinarith [hha.2.1, hha.2.2, Real.pi_gt_d6]
  have hy2 : (haT0 / 180 - 1 / 2) * Real.pi ≤ 0.0068714 := by
    nlinarith [hha.2.1, hha.2.2, Real.pi_lt_d6, Real.pi_gt_d6]
  have hsu : Real.sin ((haT0 / 180 - 1 / 2) * Real.pi) < (haT0 / 180 - 1 / 2) * Real.pi :=
    Real.sin_lt (by linarith)
  have hsl : (haT0 / 180 - 1 / 2) * Real.pi - ((haT0 / 180 - 1 / 2) * Real.pi) ^ 3 / 4 <
      Real.sin ((haT0 / 180 - 1 / 2) * Real.pi) :=
    Real.sin_gt_sub_cube (by linarith) (by linarith)
  have hcube : ((haT0 / 180 - 1 / 2) * Real.pi) ^ 3 ≤ 0.0000004 := by
    have h3 := pow_le_pow_left₀ (by linarith : (0 : ℝ) ≤ (haT0 / 180 - 1 / 2) * Real.pi) hy2 3
    exact le_trans h3 (by norm_num)
  constructor
  · linarith
  · linarith

end Solarlib

namespace Solarlib

theorem arg2_T0 : -0.38717 ≤ arg2T0 ∧ arg2T0 ≤ -0.38409 := by
  have hs := sin75v_T0
  have hc := cos75v_T0
  have hp := p_T0
  have hcd := cd_T0
  have hha := cosHA_T0
  unfold arg2T0
  rw [dT0_sin, dT0_cos]
  have t1 := mul_mem_pn (Real.sin (75 * DEG_TO_RAD)) pT0 0.96548 0.96598
    (-0.39910) (-0.39616) (by norm_num) (by norm_num) hs.1 hs.2 hp.1 hp.2
  have t2 := mul_mem_pp (Real.cos (75 * DEG_TO_RAD)) (Real.sqrt (1 - pT0 ^ 2))
    0.25856 0.25906 0.91690 0.91819 (by norm_num) (by norm_num) hc.1 hc.2 hcd.1 hcd.2
  have t2r : 0.2370723 ≤ Real.cos (75 * DEG_TO_RAD) * Real.sqrt (1 - pT0 ^ 2) ∧
      Real.cos (75 * DEG_TO_RAD) * Real.sqrt (1 - pT0 ^ 2) ≤ 0.2378665 := by
    constructor <;> linarith [t2.1, t2.2]
  have t3 := mul_mem_pn (Real.cos (75 * DEG_TO_RAD) * Real.sqrt (1 - pT0 ^ 2))
    (Real.cos (haT0 * DEG_TO_RAD)) 0.2370723 0.2378665 (-0.0068714) (-0.0068450)
    (by norm_num) (by norm_num) t2r.1 t2r.2 hha.1 hha.2
  constructor <;> linarith [t1.1, t1.2, t3.1, t3.2]

theorem szaOf_T0_75 : szaOf jcnT0 75 haT0 = some zT0 := by
  have h2 := arg2_T0
  unfold szaOf
  rw [sdecOf_T0]
  show (acosD arg2T0).map (fun v => v * RAD_TO_DEG) = some zT0
  unfold acosD
  rw [if_pos (⟨by linarith [h2.1], by linarith [h2.2]⟩ : -1 ≤ arg2T0 ∧ arg2T0 ≤ 1)]
  rfl

theorem zT0_mul : zT0 * DEG_TO_RAD = Real.arccos arg2T0 := by
  unfold zT0 RAD_TO_DEG DEG_TO_RAD
  field_simp

theorem zT0_cos : Real.cos (zT0 * DEG_TO_RAD) = arg2T0 := by
  have h2 := arg2_T0
  rw [zT0_mul]
  exact Real.cos_arccos (by linarith [h2.1]) (by linarith [h2.2])

theorem zT0_sin : Real.sin (zT0 * DEG_TO_RAD) = Real.sqrt (1 - arg2T0 ^ 2) := by
  rw [zT0_mul, Real.sin_arccos]

theorem sinz_T0 : 0.92200 ≤ Real.sqrt (1 - arg2T0 ^ 2) ∧
    Real.sqrt (1 - arg2T0 ^ 2) ≤ 0.92331 := by
  have h2 := arg2_T0
  constructor
  · have h1 : (0.92200 : ℝ) = Real.sqrt (0.92200 ^ 2) := (Real.sqrt_sq (by norm_num)).symm
    rw [h1]
    apply Real.sqrt_le_sqrt
    nlinarith [h2.1, h2.2]
  · have h1 : (0.92331 : ℝ) = Real.sqrt (0.92331 ^ 2) := (Real.sqrt_sq (by norm_num)).symm
    rw [h1]
    apply Real.sqrt_le_sqrt
    nlinarith [h2.1, h2.2]

theorem arg3_T0_mem : -1 ≤ arg3T0 ∧ arg3T0 ≤ 1 := by
  have hs := sin75v_T0
  have hc := cos75v_T0
  have hp := p_T0
  have h2 := arg2_T0
  have hsz := sinz_T0
  unfold arg3T0
  rw [zT0_cos, dT0_sin, zT0_sin]
  have t4 := mul_mem_pn (Real.sin (75 * DEG_TO_RAD)) arg2T0 0.96548 0.96598
    (-0.38717) (-0.38409) (by norm_num) (by norm_num) hs.1 hs.2 h2.1 h2.2
  have hnum : 0.0221604 ≤ Real.sin (75 * DEG_TO_RAD) * arg2T0 - pT0 ∧
      Real.sin (75 * DEG_TO_RAD) * arg2T0 - pT0 ≤ 0.0282716 := by
    constructor <;> linarith [t4.1, t4.2, hp.1, hp.2]
  have t5 := mul_mem_pp (Real.cos (75 * DEG_TO_RAD)) (Real.sqrt (1 - arg2T0 ^ 2))
    0.25856 0.25906 0.92200 0.92331 (by norm_num) (by norm_num) hc.1 hc.2 hsz.1 hsz.2
  have hden : 0.2383923 ≤ Real.cos (75 * DEG_TO_RAD) * Real.sqrt (1 - arg2T0 ^ 2) ∧
      Real.cos (75 * DEG_TO_RAD) * Real.sqrt (1 - arg2T0 ^ 2) ≤ 0.2391927 := by
    constructor <;> linarith [t5.1, t5.2]
  have hdpos : (0 : ℝ) < Real.cos (75 * DEG_TO_RAD) * Real.sqrt (1 - arg2T0 ^ 2) := by
    linarith [hden.1]
  constructor
  · rw [le_div_iff₀ hdpos]
    linarith [hnum.1, hden.1]
  · rw [div_le_iff₀ hdpos]
    linarith [hnum.2, hden.1]

theorem haT0_pos : 0 < haT0 := by
  have h := ha_T0
  linarith [h.2.1]

theorem saaOf_T0_75 :
    saaOf jcnT0 75 haT0 = some (mod360 (Real.arccos arg3T0 * RAD_TO_DEG + 180)) := by
  have h3 := arg3_T0_mem
  unfold saaOf
  rw [sdecOf_T0]
  simp only [Option.some_bind']
  rw [szaOf_T0_75]
  simp only [Option.some_bind']
  rw [if_pos haT0_pos]
  show (acosD arg3T0).map (fun a => mod360 (a * RAD_TO_DEG + 180)) = _
  unfold acosD
  rw [if_pos h3]
  rfl

theorem seaOf_T0_75 : seaOf jcnT0 75 haT0 = some (90 - zT0) := by
  unfold seaOf
  rw [szaOf_T0_75]
  rfl

theorem aarOf_T0_75 : aarOf jcnT0 75 haT0 = some (aarFn (90 - zT0)) := by
  unfold aarOf
  rw [seaOf_T0_75]
  rfl

theorem secCorrOf_T0_75 :
    secCorrOf jcnT0 75 haT0 = some (90 - zT0 + aarFn (90 - zT0)) := by
  unfold secCorrOf
  rw [seaOf_T0_75]
  simp only [Option.some_bind']
  rw [aarOf_T0_75]
  rfl

theorem calc75_HAS : (calcSolar T0 s75).HAS = none := by
  show hasOf (jcnOf (jdnOf T0 0)) 75 = none
  rw [jcn_T0]
  exact hasOf_T0_75

theorem calc75_Sunrise : (calcSolar T0 s75).Sunrise = none := by
  show sunriseOf T0 0 (jcnOf (jdnOf T0 0)) 75 0 = none
  rw [jcn_T0]
  unfold sunriseOf
  rw [hasOf_T0_75]
  rfl

theorem calc75_Sunset : (calcSolar T0 s75).Sunset = none := by
  show sunsetOf T0 0 (jcnOf (jdnOf T0 0)) 75 0 = none
  rw [jcn_T0]
  unfold sunsetOf
  rw [hasOf_T0_75]
  rfl

theorem calc75_SunDuration : (calcSolar T0 s75).SunDuration = none := by
  show (hasOf (jcnOf (jdnOf T0 0)) 75).map (fun h => 8 * h) = none
  rw [jcn_T0, hasOf_T0_75]
  rfl

theorem calc75_SDec : (calcSolar T0 s75).SDec = some dT0 := by
  show sdecOf (jcnOf (jdnOf T0 0)) = some dT0
  rw [jcn_T0]
  exact sdecOf_T0

theorem calc75_SZA : (calcSolar T0 s75).SZA = some zT0 := by
  show szaOf (jcnOf (jdnOf T0 0)) 75 (haOf (tstOf T0 (jcnOf (jdnOf T0 0)) 0 0)) = some zT0
  rw [jcn_T0]
  exact szaOf_T0_75

theorem calc75_SEA : (calcSolar T0 s75).SEA = some (90 - zT0) := by
  show seaOf (jcnOf (jdnOf T0 0)) 75 (haOf (tstOf T0 (jcnOf (jdnOf T0 0)) 0 0)) =
    some (90 - zT0)
  rw [jcn_T0]
  exact seaOf_T0_75

theorem calc75_AAR : (calcSolar T0 s75).AAR = some (aarFn (90 - zT0)) := by
  show aarOf (jcnOf (jdnOf T0 0)) 75 (haOf (tstOf T0 (jcnOf (jdnOf T0 0)) 0 0)) =
    some (aarFn (90 - zT0))
  rw [jcn_T0]
  exact aarOf_T0_75

theorem calc75_SECC :
    (calcSolar T0 s75).SEC_Corr = some (90 - zT0 + aarFn (90 - zT0)) := by
  show secCorrOf (jcnOf (jdnOf T0 0)) 75 (haOf (tstOf T0 (jcnOf (jdnOf T0 0)) 0 0)) =
    some (90 - zT0 + aarFn (90 - zT0))
  rw [jcn_T0]
  exact secCorrOf_T0_75

theorem calc75_SAA :
    (calcSolar T0 s75).SAA = some (mod360 (Real.arccos arg3T0 * RAD_TO_DEG + 180)) := by
  show saaOf (jcnOf (jdnOf T0 0)) 75 (haOf (tstOf T0 (jcnOf (jdnOf T0 0)) 0 0)) =
    some (mod360 (Real.arccos arg3T0 * RAD_TO_DEG + 180))
  rw [jcn_T0]
  exact saaOf_T0_75

theorem calc00_HAS : (calcSolar T0 s00).HAS = some hT0 := by
  show hasOf (jcnOf (jdnOf T0 0)) 0 = some hT0
  rw [jcn_T0]
  exact hasOf_T0_0

end Solarlib

namespace Solarlib

/-- Claim C7: at the winter-solstice instant T0 (2012-12-21 18:00:00
UTC) with latitude 75 N, the Hour Angle Sunrise, Sunrise, Sunset and
Sun Duration are NaN (none), while the declination, zenith angle,
elevation, refraction, corrected elevation and azimuth are all finite
(some), with their exact computed values: NaN propagates exactly to
the fields downstream of the out-of-domain acos and nowhere else. -/
theorem polar_night_fields :
    (calcSolar T0 s75).HAS = none ∧
    (calcSolar T0 s75).Sunrise = none ∧
    (calcSolar T0 s75).Sunset = none ∧
    (calcSolar T0 s75).SunDuration = none ∧
    (calcSolar T0 s75).SDec = some dT0 ∧
    (calcSolar T0 s75).SZA = some zT0 ∧
    (calcSolar T0 s75).SEA = some (90 - zT0) ∧
    (calcSolar T0 s75).AAR = some (aarFn (90 - zT0)) ∧
    (calcSolar T0 s75).SEC_Corr = some (90 - zT0 + aarFn (90 - zT0)) ∧
    (calcSolar T0 s75).SAA = some (mod360 (Real.arccos arg3T0 * RAD_TO_DEG + 180)) :=
  ⟨calc75_HAS, calc75_Sunrise, calc75_Sunset, calc75_SunDuration, calc75_SDec,
    calc75_SZA, calc75_SEA, calc75_AAR, calc75_SECC, calc75_SAA⟩

/-- Claim C2: the getOC accessor returns the Mean Oblique Ecliptic
field of the freshly computed record, for every input; and at the
concrete instant T0 that returned value differs from the Oblique
Correction field that calcSolar stores, so getOC really reads the
wrong field. -/
theorem getOC_returns_MOE :
    (∀ t s, (getOC t s).1 = (calcSolar t s).MOE) ∧
    (getOC T0 s75).1 ≠ (calcSolar T0 s75).OC := by
  constructor
  · intro t s
    rfl
  · show moeOf (jcnOf (jdnOf T0 0)) ≠ ocOf (jcnOf (jdnOf T0 0))
    rw [jcn_T0]
    have hw := cosW_T0
    unfold ocOf
    intro h
    linarith [hw.2]

/-- Claim C10: the three time_t outputs are the C double-to-integer
truncation of the corresponding double values; a NaN Sunrise or
Sunset is converted to the integer 0, and every in-range finite value
also truncates to 0, so the time_t output alone cannot distinguish
the polar (NaN) case from a genuine epoch-adjacent instant. -/
theorem timeT_truncation (t : ℤ) (s : SolarElements) :
    (calcSolar t s).SolarNoonTime = ctrunc ((calcSolar t s).SolarNoonDays * 86400) ∧
    (calcSolar t s).SunriseTime = timeTcast (calcSolar t s).Sunrise ∧
    (calcSolar t s).SunsetTime = timeTcast (calcSolar t s).Sunset ∧
    ((calcSolar t s).Sunrise = none → (calcSolar t s).SunriseTime = 0) ∧
    (∀ v : ℝ, -1 < v → v < 1 → timeTcast (some v) = timeTcast none) := by
  refine ⟨rfl, rfl, rfl, ?_, ?_⟩
  · intro h
    have h2 : sunriseOf t s.tzOffset (jcnOf (jdnOf t s.tzOffset)) s.lat s.lon = none := h
    show timeTcast (sunriseOf t s.tzOffset (jcnOf (jdnOf t s.tzOffset)) s.lat s.lon) = 0
    rw [h2]
    rfl
  · intro v h1 h2
    show ctrunc v = 0
    unfold ctrunc
    split
    · next hv =>
        rw [Int.floor_eq_zero_iff.mpr ⟨hv, h2⟩]
    · next hv =>
        push_neg at hv
        rw [Int.floor_eq_zero_iff.mpr ⟨by linarith, by linarith⟩]
        rfl

theorem timeT_truncation_witness :
    (calcSolar T0 s75).Sunrise = none ∧ (calcSolar T0 s75).SunriseTime = 0 ∧
    timeTcast (some (1 / 2)) = timeTcast none := by
  refine ⟨calc75_Sunrise, ?_, ?_⟩
  · exact (timeT_truncation T0 s75).2.2.2.1 calc75_Sunrise
  · exact (timeT_truncation T0 s75).2.2.2.2 (1 / 2) (by norm_num) (by norm_num)

theorem day_membership_witness :
    (calcSolar T0 s00).HAS = some hT0 ∧
    (∃ r st d, (calcSolar T0 s00).Sunrise = some r ∧ (calcSolar T0 s00).Sunset = some st ∧
      (calcSolar T0 s00).SunDuration = some d ∧
      r ≤ (calcSolar T0 s00).SolarNoonDays * 86400 ∧
      (calcSolar T0 s00).SolarNoonDays * 86400 ≤ st ∧
      st - r = 60 * d) :=
  ⟨calc00_HAS, day_membership T0 s00 hT0 calc00_HAS⟩

theorem refraction_piecewise_witness :
    (calcSolar T0 s75).SEA = some (90 - zT0) ∧
    (calcSolar T0 s75).AAR = some (aarFn (90 - zT0)) :=
  ⟨calc75_SEA, (refraction_piecewise T0 s75 (90 - zT0) calc75_SEA).1⟩

end Solarlib

namespace Solarlib

theorem mul_unit_le (x y A : ℝ) (hx0 : 0 ≤ x) (hxA : x ≤ A)
    (hy1 : -1 ≤ y) (hy2 : y ≤ 1) : -A ≤ x * y ∧ x * y ≤ A := by
  constructor
  · have h1 : x * (-1) ≤ x * y := mul_le_mul_of_nonneg_left hy1 hx0
    linarith [h1]
  · have h1 : x * y ≤ x * 1 := mul_le_mul_of_nonneg_left hy2 hx0
    linarith [h1]

theorem mul_sym_le (x y A B : ℝ) (hA : 0 ≤ A) (hx1 : -A ≤ x) (hx2 : x ≤ A)
    (hy0 : 0 ≤ y) (hyB : y ≤ B) : -(A * B) ≤ x * y ∧ x * y ≤ A * B := by
  have h2 : A * y ≤ A * B := mul_le_mul_of_nonneg_left hyB hA
  constructor
  · have h1 : -A * y ≤ x * y := mul_le_mul_of_nonneg_right hx1 hy0
    linarith [h1, h2]
  · have h1 : x * y ≤ A * y := mul_le_mul_of_nonneg_right hx2 hy0
    linarith [h1, h2]

theorem eeo_bound (jcn : ℝ) (hj1 : -1 ≤ jcn) (hj2 : jcn ≤ 1) :
    0.016666 ≤ eeoOf jcn ∧ eeoOf jcn ≤ 0.016751 := by
  have hsq : jcn ^ 2 ≤ 1 := by nlinarith [hj1, hj2]
  unfold eeoOf
  constructor <;> nlinarith [hsq, sq_nonneg jcn, hj1, hj2]

theorem oc_bound (jcn : ℝ) (hj1 : -1 ≤ jcn) (hj2 : jcn ≤ 1) :
    23.423 ≤ ocOf jcn ∧ ocOf jcn ≤ 23.456 := by
  have hsq : jcn ^ 2 ≤ 1 := by nlinarith [hj1, hj2]
  have hc1 : (0 : ℝ) ≤ (1 - jcn) * jcn ^ 2 := mul_nonneg (by linarith) (sq_nonneg jcn)
  have hc2 : (0 : ℝ) ≤ (jcn + 1) * jcn ^ 2 := mul_nonneg (by linarith) (sq_nonneg jcn)
  have hw1 := Real.neg_one_le_cos ((125.04 - 1934.136 * jcn) * DEG_TO_RAD)
  have hw2 := Real.cos_le_one ((125.04 - 1934.136 * jcn) * DEG_TO_RAD)
  unfold ocOf moeOf
  constructor <;> nlinarith [hsq, sq_nonneg jcn, hc1, hc2, hw1, hw2, hj1, hj2]

theorem vy_bound (jcn : ℝ) (hj1 : -1 ≤ jcn) (hj2 : jcn ≤ 1) :
    0 ≤ vyOf jcn ∧ vyOf jcn ≤ 0.0438 := by
  have hoc := oc_bound jcn hj1 hj2
  have hpi1 := Real.pi_gt_d6
  have hpi2 := Real.pi_lt_d6
  have hm := mul_mem_pp (ocOf jcn) Real.pi 23.423 23.456 3.141592 3.141593
    (by norm_num) (by norm_num) hoc.1 hoc.2 hpi1.le hpi2.le
  have hx1 : 0.2044 ≤ ocOf jcn / 2 * DEG_TO_RAD := by
    unfold DEG_TO_RAD
    linarith [hm.1]
  have hx2 : ocOf jcn / 2 * DEG_TO_RAD ≤ 0.2047 := by
    unfold DEG_TO_RAD
    linarith [hm.2]
  have hx0 : (0 : ℝ) ≤ ocOf jcn / 2 * DEG_TO_RAD := by linarith
  have hsle : Real.sin (ocOf jcn / 2 * DEG_TO_RAD) ≤ 0.2047 :=
    le_trans (Real.sin_le hx0) hx2
  have hsnn : 0 ≤ Real.sin (ocOf jcn / 2 * DEG_TO_RAD) := by
    apply Real.sin_nonneg_of_nonneg_of_le_pi hx0
    linarith [hx2, hpi1]
  have hxsq : (ocOf jcn / 2 * DEG_TO_RAD) ^ 2 ≤ 0.2047 ^ 2 := by
    nlinarith [hx1, hx2]
  have hcge : 0.979 ≤ Real.cos (ocOf jcn / 2 * DEG_TO_RAD) := by
    have h1 := @Real.one_sub_sq_div_two_le_cos (ocOf jcn / 2 * DEG_TO_RAD)
    nlinarith [hxsq, h1]
  have htan : Real.tan (ocOf jcn / 2 * DEG_TO_RAD) ≤ 0.2091 := by
    rw [Real.tan_eq_sin_div_cos]
    have h2 : Real.sin (ocOf jcn / 2 * DEG_TO_RAD) / Real.cos (ocOf jcn / 2 * DEG_TO_RAD) ≤
        0.2047 / 0.979 := div_le_div₀ (by norm_num) hsle (by norm_num) hcge
    linarith [h2]
  have htnn : 0 ≤ Real.tan (ocOf jcn / 2 * DEG_TO_RAD) := by
    rw [Real.tan_eq_sin_div_cos]
    exact div_nonneg hsnn (by linarith)
  have hsq := mul_mem_pp (Real.tan (ocOf jcn / 2 * DEG_TO_RAD))
    (Real.tan (ocOf jcn / 2 * DEG_TO_RAD)) 0 0.2091 0 0.2091
    le_rfl le_rfl htnn htan htnn htan
  unfold vyOf
  exact ⟨by linarith [hsq.1], by linarith [hsq.2]⟩

theorem eot_abs_combo (vy e s1 s2 s5 c5 s6 R : ℝ)
    (hv1 : 0 ≤ vy) (hv2 : vy ≤ 0.0438)
    (he1 : 0.016666 ≤ e) (he2 : e ≤ 0.016751)
    (h11 : -1 ≤ s1) (h12 : s1 ≤ 1) (h21 : -1 ≤ s2) (h22 : s2 ≤ 1)
    (h51 : -1 ≤ s5) (h52 : s5 ≤ 1) (h71 : -1 ≤ c5) (h72 : c5 ≤ 1)
    (h81 : -1 ≤ s6) (h82 : s6 ≤ 1)
    (hR1 : 57.29577 ≤ R) (hR2 : R ≤ 57.29580) :
    -18.7 ≤ 4 * ((vy * s5 - 2 * e * s1 + 4 * e * vy * s1 * c5 -
      0.5 * vy * vy * s6 - 1.25 * e * e * s2) * R) ∧
    4 * ((vy * s5 - 2 * e * s1 + 4 * e * vy * s1 * c5 -
      0.5 * vy * vy * s6 - 1.25 * e * e * s2) * R) ≤ 18.7 := by
  have t1 := mul_unit_le vy s5 0.0438 hv1 hv2 h51 h52
  have t2 := mul_unit_le e s1 0.016751 (by linarith) he2 h11 h12
  have tev := mul_mem_pp e vy 0 0.016751 0 0.0438 le_rfl le_rfl
    (by linarith) he2 hv1 hv2
  have c1 : (0 : ℝ) ≤ (1 - s1) * (1 - c5) := mul_nonneg (by linarith) (by linarith)
  have c2 : (0 : ℝ) ≤ (1 - s1) * (c5 + 1) := mul_nonneg (by linarith) (by linarith)
  have c3 : (0 : ℝ) ≤ (s1 + 1) * (1 - c5) := mul_nonneg (by linarith) (by linarith)
  have c4 : (0 : ℝ) ≤ (s1 + 1) * (c5 + 1) := mul_nonneg (by linarith) (by linarith)
  have tsc : -1 ≤ s1 * c5 ∧ s1 * c5 ≤ 1 := by
    constructor <;> linarith [c1, c2, c3, c4]
  have t3 := mul_unit_le (e * vy) (s1 * c5) 0.00073370
    (by linarith [tev.1]) (by linarith [tev.2]) tsc.1 tsc.2
  have tvv := mul_mem_pp vy vy 0 0.0438 0 0.0438 le_rfl le_rfl hv1 hv2 hv1 hv2
  have t4 := mul_unit_le (vy * vy) s6 0.00191845
    (by linarith [tvv.1]) (by linarith [tvv.2]) h81 h82
  have tee := mul_mem_pp e e 0.016666 0.016751 0.016666 0.016751
    (by norm_num) (by norm_num) he1 he2 he1 he2
  have t5 := mul_unit_le (e * e) s2 0.00028060
    (by linarith [tee.1]) (by linarith [tee.2]) h21 h22
  have hS1 : -(0.08155 : ℝ) ≤ vy * s5 - 2 * e * s1 + 4 * e * vy * s1 * c5 -
      0.5 * vy * vy * s6 - 1.25 * e * e * s2 := by
    linarith [t1.1, t2.2, t3.1, t4.2, t5.2]
  have hS2 : vy * s5 - 2 * e * s1 + 4 * e * vy * s1 * c5 -
      0.5 * vy * vy * s6 - 1.25 * e * e * s2 ≤ 0.08155 := by
    linarith [t1.2, t2.1, t3.2, t4.1, t5.1]
  have hf := mul_sym_le (vy * s5 - 2 * e * s1 + 4 * e * vy * s1 * c5 -
      0.5 * vy * vy * s6 - 1.25 * e * e * s2) R 0.08155 57.29580
    (by norm_num) hS1 hS2 (by linarith) hR2
  constructor <;> linarith [hf.1, hf.2]

theorem eot_bound (jcn : ℝ) (hj1 : -1 ≤ jcn) (hj2 : jcn ≤ 1) :
    -18.7 ≤ eotOf jcn ∧ eotOf jcn ≤ 18.7 := by
  have hv := vy_bound jcn hj1 hj2
  have he := eeo_bound jcn hj1 hj2
  have hR := rad_to_deg_mem
  unfold eotOf
  exact eot_abs_combo (vyOf jcn) (eeoOf jcn) _ _ _ _ _ RAD_TO_DEG
    hv.1 hv.2 he.1 he.2
    (Real.neg_one_le_sin _) (Real.sin_le_one _)
    (Real.neg_one_le_sin _) (Real.sin_le_one _)
    (Real.neg_one_le_sin _) (Real.sin_le_one _)
    (Real.neg_one_le_cos _) (Real.cos_le_one _)
    (Real.neg_one_le_sin _) (Real.sin_le_one _)
    hR.1 hR.2

theorem tfd_43200 : timeFracDayOf 43200 = 1 / 2 := by
  have h1 : (secondOf 43200).tdiv 60 = 0 := by decide
  have h2 : minuteOf 43200 = 0 := by decide
  have h3 : hourOf 43200 = 12 := by decide
  unfold timeFracDayOf
  rw [h1, h2, h3]
  norm_num

theorem tfd_39600 : timeFracDayOf 39600 = 11 / 24 := by
  have h1 : (secondOf 39600).tdiv 60 = 0 := by decide
  have h2 : minuteOf 39600 = 0 := by decide
  have h3 : hourOf 39600 = 11 := by decide
  unfold timeFracDayOf
  rw [h1, h2, h3]
  norm_num

theorem jcn_t1 : jcnOf (jdnOf 43200 0) = -10957 / 36525 := by
  unfold jcnOf jdnOf julianUnixEpoch
  have h1 : unixDaysOf 43200 = 0 := by decide
  rw [h1, tfd_43200]
  norm_num

theorem jcn_t2 : jcnOf (jdnOf 39600 1) = -131485 / 438300 := by
  unfold jcnOf jdnOf julianUnixEpoch
  have h1 : unixDaysOf 39600 = 0 := by decide
  rw [h1, tfd_39600]
  norm_num

/-- Claim C4 (counterexample): at latitude 0, longitude 0, comparing
timestamp 43200 with tzOffset 0 against timestamp 43200 - 3600 * 1
with tzOffset 1, the Solar Noon instants (the truncated epoch-second
field SolarNoonTime) differ, so the shift direction stated by the
spec does not leave the instants unchanged: the library interprets
its input and output as local time, so the matching shift is
t + 3600 * delta, and even then the outputs move by 3600 * delta. -/
theorem tz_shift_counterexample :
    (calcSolar (43200 - 3600 * 1) (initSolarCalc 1 0 0 SE0)).SolarNoonTime ≠
      (calcSolar 43200 (initSolarCalc 0 0 0 SE0)).SolarNoonTime := by
  have h39 : (43200 - 3600 * 1 : ℤ) = 39600 := by norm_num
  rw [h39]
  show ctrunc (solarNoonDaysOf 39600 1 (jcnOf (jdnOf 39600 1)) 0 * 86400) ≠
    ctrunc (solarNoonDaysOf 43200 0 (jcnOf (jdnOf 43200 0)) 0 * 86400)
  rw [jcn_t2, jcn_t1]
  have hu1 : unixDaysOf 39600 = 0 := by decide
  have hu2 : unixDaysOf 43200 = 0 := by decide
  have hv2eq : solarNoonDaysOf 39600 1 (-131485 / 438300) 0 * 86400 =
      43200 + 3600 - 60 * eotOf (-131485 / 438300) := by
    unfold solarNoonDaysOf solarNoonfracOf
    rw [hu1]
    push_cast
    ring
  have hv1eq : solarNoonDaysOf 43200 0 (-10957 / 36525) 0 * 86400 =
      43200 - 60 * eotOf (-10957 / 36525) := by
    unfold solarNoonDaysOf solarNoonfracOf
    rw [hu2]
    push_cast
    ring
  rw [hv1eq, hv2eq]
  have hb1 := eot_bound (-10957 / 36525) (by norm_num) (by norm_num)
  have hb2 := eot_bound (-131485 / 438300) (by norm_num) (by norm_num)
  have hpos2 : (0 : ℝ) ≤ 43200 + 3600 - 60 * eotOf (-131485 / 438300) := by
    linarith [hb2.2]
  have hpos1 : (0 : ℝ) ≤ 43200 - 60 * eotOf (-10957 / 36525) := by
    linarith [hb1.2]
  unfold ctrunc
  rw [if_pos hpos2, if_pos hpos1]
  have h2lo : (45678 : ℤ) ≤ ⌊(43200 + 3600 - 60 * eotOf (-131485 / 438300) : ℝ)⌋ := by
    apply Int.le_floor.mpr
    push_cast
    linarith [hb2.2]
  have h1hi : ⌊(43200 - 60 * eotOf (-10957 / 36525) : ℝ)⌋ ≤ 44322 := by
    have hle := Int.floor_le (43200 - 60 * eotOf (-10957 / 36525) : ℝ)
    have h3 : ((⌊(43200 - 60 * eotOf (-10957 / 36525) : ℝ)⌋ : ℝ)) ≤ 44322 := by
      linarith [hb1.1]
    exact_mod_cast h3
  omega

theorem shift_unixDays (t d : ℤ) (h0 : 0 ≤ t) (hd : 0 ≤ d)
    (hroll : hourOf t + d < 24) : unixDaysOf (t + 3600 * d) = unixDaysOf t := by
  have hr2 : (t % 86400) / 3600 + d < 24 := hroll
  unfold unixDaysOf
  rw [Int.tdiv_eq_ediv h0 (by norm_num), Int.tdiv_eq_ediv (by omega) (by norm_num)]
  show (t + 3600 * d) / 86400 = t / 86400
  omega

theorem shift_tfd (t d : ℤ) (h0 : 0 ≤ t) (hd : 0 ≤ d) (hroll : hourOf t + d < 24) :
    timeFracDayOf (t + 3600 * d) = timeFracDayOf t + (d : ℝ) / 24 := by
  have hr2 : (t % 86400) / 3600 + d < 24 := hroll
  have hh : hourOf (t + 3600 * d) = hourOf t + d := by
    show ((t + 3600 * d) % 86400) / 3600 = (t % 86400) / 3600 + d
    omega
  have hm : minuteOf (t + 3600 * d) = minuteOf t := by
    show ((t + 3600 * d) % 3600) / 60 = (t % 3600) / 60
    omega
  have hs : secondOf (t + 3600 * d) = secondOf t := by
    show (t + 3600 * d) % 60 = t % 60
    omega
  unfold timeFracDayOf
  rw [hh, hm, hs]
  push_cast
  ring

theorem shift_jdn (t d : ℤ) (h0 : 0 ≤ t) (hd : 0 ≤ d) (hroll : hourOf t + d < 24) :
    jdnOf (t + 3600 * d) d = jdnOf t 0 := by
  unfold jdnOf
  rw [shift_unixDays t d h0 hd hroll, shift_tfd t d h0 hd hroll]
  push_cast
  ring

/-- Claim C4 (amended): the library treats both its input timestamp
and its outputs as local time.  For a nonnegative timestamp t, a
nonnegative whole-hour offset delta that does not cross local
midnight, the run with timestamp t + 3600 * delta (the claim says
t - 3600 * delta) and tzOffset = delta produces the same SolarNoon,
Sunrise and Sunset absolute instants as the run with t and tzOffset 0:
each local-epoch-second output is shifted by exactly + 3600 * delta,
which is cancelled when the time zone is removed again. -/
theorem tz_shift_amended (t d : ℤ) (la lo : ℝ) (h0 : 0 ≤ t) (hd : 0 ≤ d)
    (hroll : hourOf t + d < 24) :
    (calcSolar (t + 3600 * d) (initSolarCalc d la lo SE0)).SolarNoonDays * 86400 =
      (calcSolar t (initSolarCalc 0 la lo SE0)).SolarNoonDays * 86400 + 3600 * (d : ℝ) ∧
    (calcSolar (t + 3600 * d) (initSolarCalc d la lo SE0)).Sunrise =
      ((calcSolar t (initSolarCalc 0 la lo SE0)).Sunrise).map
        (fun r => r + 3600 * (d : ℝ)) ∧
    (calcSolar (t + 3600 * d) (initSolarCalc d la lo SE0)).Sunset =
      ((calcSolar t (initSolarCalc 0 la lo SE0)).Sunset).map
        (fun r => r + 3600 * (d : ℝ)) := by
  have hjd := shift_jdn t d h0 hd hroll
  have hud := shift_unixDays t d h0 hd hroll
  refine ⟨?_, ?_, ?_⟩
  · show solarNoonDaysOf (t + 3600 * d) d (jcnOf (jdnOf (t + 3600 * d) d)) lo * 86400 =
      solarNoonDaysOf t 0 (jcnOf (jdnOf t 0)) lo * 86400 + 3600 * (d : ℝ)
    rw [hjd]
    unfold solarNoonDaysOf
    rw [hud]
    push_cast
    ring
  · show sunriseOf (t + 3600 * d) d (jcnOf (jdnOf (t + 3600 * d) d)) la lo =
      (sunriseOf t 0 (jcnOf (jdnOf t 0)) la lo).map (fun r => r + 3600 * (d : ℝ))
    rw [hjd]
    unfold sunriseOf
    rw [hud]
    cases hv : hasOf (jcnOf (jdnOf t 0)) la with
    | none => rfl
    | some h =>
        show some _ = some _
        congr 1
        push_cast
        ring
  · show sunsetOf (t + 3600 * d) d (jcnOf (jdnOf (t + 3600 * d) d)) la lo =
      (sunsetOf t 0 (jcnOf (jdnOf t 0)) la lo).map (fun r => r + 3600 * (d : ℝ))
    rw [hjd]
    unfold sunsetOf
    rw [hud]
    cases hv : hasOf (jcnOf (jdnOf t 0)) la with
    | none => rfl
    | some h =>
        show some _ = some _
        congr 1
        push_cast
        ring

theorem tz_shift_amended_witness :
    (0 : ℤ) ≤ 43200 ∧ (0 : ℤ) ≤ 1 ∧ hourOf 43200 + 1 < 24 ∧
    ((calcSolar (43200 + 3600 * 1) (initSolarCalc 1 0 0 SE0)).SolarNoonDays * 86400 =
      (calcSolar 43200 (initSolarCalc 0 0 0 SE0)).SolarNoonDays * 86400 +
        3600 * ((1 : ℤ) : ℝ) ∧
    (calcSolar (43200 + 3600 * 1) (initSolarCalc 1 0 0 SE0)).Sunrise =
      ((calcSolar 43200 (initSolarCalc 0 0 0 SE0)).Sunrise).map
        (fun r => r + 3600 * ((1 : ℤ) : ℝ)) ∧
    (calcSolar (43200 + 3600 * 1) (initSolarCalc 1 0 0 SE0)).Sunset =
      ((calcSolar 43200 (initSolarCalc 0 0 0 SE0)).Sunset).map
        (fun r => r + 3600 * ((1 : ℤ) : ℝ))) :=
  ⟨by decide, by decide, by decide,
    tz_shift_amended 43200 1 0 0 (by decide) (by decide) (by decide)⟩

end Solarlib
